import Mathlib

/-!
# Verification of the scroll-animation core

Shallow embedding, over `ℚ`, of the spring-physics engine
(`src/services/springPhysicsService.js`), the scroll-animation orchestrator
(`src/services/scrollAnimationOrchestrator.js`) and the two section-scroll
hooks (`src/hooks/useSectionScroll.js`, `src/hooks/useSectionSnap.js`),
together with proofs and refutations of the specified properties.

JavaScript numbers are modelled by `ℚ`; the one place where IEEE special
values (NaN / Infinity) are the point of the property uses a dedicated
`JSNum` type with JavaScript division / min / max semantics.
Diagnostics emitted with `console.warn` are modelled as a returned
`List String`; `console.log` debug output is not modelled.
-/

/-- A spring, as stored in `SpringPhysicsService.springs`.
The free-form `metadata` field (debug label only) is not modelled. -/
structure Spring where
  id : String
  value : ℚ
  target : ℚ
  velocity : ℚ
  k : ℚ
  c : ℚ
  isSettled : Bool
  deriving DecidableEq, Repr

/-- Engine state: the `springs` insertion-ordered map (a JS `Map`) plus the
loop and performance fields of `SpringPhysicsService`.  The RAF bookkeeping
(`rafId`, `lastTime`), debug-canvas fields and the callback list are not part
of this state; callbacks are modelled separately for `notifyUpdate`. -/
structure EngineState where
  springs : List (String × Spring)
  isRunning : Bool
  autoSleep : Bool
  sleepThreshold : ℚ
  maxDeltaTime : ℚ
  deriving DecidableEq, Repr

/-- The constructor values of `SpringPhysicsService`. -/
def initEngine : EngineState :=
  { springs := []
    isRunning := false
    autoSleep := true
    sleepThreshold := 1/1000
    maxDeltaTime := 1/10 }

/-- JS `Map.get`: the binding for a key, if present. -/
def mapGet (m : List (String × Spring)) (key : String) : Option Spring :=
  match m with
  | [] => none
  | (k0, v0) :: rest => if k0 = key then some v0 else mapGet rest key

/-- JS `Map.set`: overwrite in place if the key is present (a JS `Map` keeps
the original insertion position), otherwise append. -/
def mapSet (m : List (String × Spring)) (key : String) (v : Spring) :
    List (String × Spring) :=
  match m with
  | [] => [(key, v)]
  | (k0, v0) :: rest =>
      if k0 = key then (k0, v) :: rest else (k0, v0) :: mapSet rest key v

/-- JS `Map.delete`: remove the binding for a key, if present. -/
def mapDelete (m : List (String × Spring)) (key : String) :
    List (String × Spring) :=
  match m with
  | [] => []
  | (k0, v0) :: rest =>
      if k0 = key then rest else (k0, v0) :: mapDelete rest key

/-- `SpringPhysicsService.createSpring(id, initialValue, target, k, c)`.
Note the source performs `this.springs.set(id, spring)` unconditionally:
an existing spring with the same id is overwritten, with no warning. -/
def createSpring (id : String) (initialValue target k c : ℚ)
    (e : EngineState) : EngineState :=
  let spring : Spring :=
    { id := id
      value := initialValue
      target := target
      velocity := 0
      k := k
      c := c
      isSettled := false }
  { e with springs := mapSet e.springs id spring }

/-- `SpringPhysicsService.startLoop()` (RAF scheduling not modelled). -/
def startLoop (e : EngineState) : EngineState :=
  if e.isRunning then e else { e with isRunning := true }

/-- `SpringPhysicsService.stopLoop()` (RAF cancellation not modelled). -/
def stopLoop (e : EngineState) : EngineState :=
  if e.isRunning then { e with isRunning := false } else e

/-- `SpringPhysicsService.updateTarget(id, newTarget)`: retarget, clear the
settled flag, auto-start the loop; warn and do nothing on an unknown id. -/
def updateTarget (id : String) (newTarget : ℚ) (e : EngineState) :
    EngineState × List String :=
  match mapGet e.springs id with
  | none => (e, ["Spring not found: " ++ id])
  | some s =>
      let s' := { s with target := newTarget, isSettled := false }
      let e' := { e with springs := mapSet e.springs id s' }
      (if e'.isRunning then e' else startLoop e', [])

/-- `SpringPhysicsService.setValue(id, newValue)`: instantaneous jump, zeroed
velocity, settled flag recomputed from `|value - target| < sleepThreshold`. -/
def setValue (id : String) (newValue : ℚ) (e : EngineState) :
    EngineState × List String :=
  match mapGet e.springs id with
  | none => (e, ["Spring not found: " ++ id])
  | some s =>
      let s' := { s with value := newValue
                         velocity := 0
                         isSettled := decide (|newValue - s.target| < e.sleepThreshold) }
      ({ e with springs := mapSet e.springs id s' }, [])

/-- `SpringPhysicsService.setConfig(id, {k, c})`: `undefined` fields are
modelled with `Option`. -/
def setConfig (id : String) (k? c? : Option ℚ) (e : EngineState) :
    EngineState × List String :=
  match mapGet e.springs id with
  | none => (e, ["Spring not found: " ++ id])
  | some s =>
      let s' := { s with k := k?.getD s.k, c := c?.getD s.c }
      ({ e with springs := mapSet e.springs id s' }, [])

/-- `SpringPhysicsService.getValue(id)`. -/
def getValue (id : String) (e : EngineState) : Option ℚ :=
  (mapGet e.springs id).map (fun s => s.value)

/-- `SpringPhysicsService.getSpring(id)`. -/
def getSpring (id : String) (e : EngineState) : Option Spring :=
  mapGet e.springs id

/-- `SpringPhysicsService.removeSpring(id)`. -/
def removeSpring (id : String) (e : EngineState) : EngineState :=
  { e with springs := mapDelete e.springs id }

/-- One spring's update inside `SpringPhysicsService.step(dt)`:
skip when settled; snap (and mark settled) when both `|velocity|` and
`|displacement|` are below the sleep threshold; otherwise integrate with
semi-implicit Euler. -/
def stepSpring (thr dt : ℚ) (s : Spring) : Spring :=
  if s.isSettled then s
  else
    let displacement := s.value - s.target
    if |s.velocity| < thr ∧ |displacement| < thr then
      { s with value := s.target, velocity := 0, isSettled := true }
    else
      let springForce := -s.k * displacement
      let dampingForce := -s.c * s.velocity
      let totalForce := springForce + dampingForce
      let velocity := s.velocity + totalForce * dt
      { s with velocity := velocity, value := s.value + velocity * dt }

/-- Whether a spring leaves `allSettled` at `true` during `step`: it is
skipped as settled, or it snaps this frame (the snap branch returns before
`allSettled = false` is reached). -/
def springQuiet (thr : ℚ) (s : Spring) : Bool :=
  s.isSettled || decide (|s.velocity| < thr ∧ |s.value - s.target| < thr)

/-- `SpringPhysicsService.step(dt)`: update every spring, then stop the loop
when all springs are settled and auto-sleep is on.  (`notifyUpdate` is pure
observation and is modelled separately.) -/
def stepEngine (dt : ℚ) (e : EngineState) : EngineState :=
  let springs' := e.springs.map (fun p => (p.1, stepSpring e.sleepThreshold dt p.2))
  let allSettled := e.springs.all (fun p => springQuiet e.sleepThreshold p.2)
  { e with springs := springs'
           isRunning := if allSettled && e.autoSleep && e.isRunning
                        then false else e.isRunning }

/-- The engine operations quantified over in the settled-flag invariant. -/
inductive EngineOp where
  | create (id : String) (v t k c : ℚ)
  | retarget (id : String) (t : ℚ)
  | setVal (id : String) (v : ℚ)
  | setCfg (id : String) (k? c? : Option ℚ)
  | stepOp (dt : ℚ)

/-- Apply one engine operation (diagnostics dropped). -/
def applyOp (op : EngineOp) (e : EngineState) : EngineState :=
  match op with
  | .create id v t k c => createSpring id v t k c e
  | .retarget id t => (updateTarget id t e).1
  | .setVal id v => (setValue id v e).1
  | .setCfg id k? c? => (setConfig id k? c? e).1
  | .stepOp dt => stepEngine dt e

/-- Apply a sequence of engine operations to the freshly constructed engine. -/
def applyOps (ops : List EngineOp) : EngineState :=
  ops.foldl (fun e op => applyOp op e) initEngine

/-! ## Per-frame subscriber notification (`notifyUpdate`) -/

/-- The consolidated `springValues` object built once per frame by
`SpringPhysicsService.notifyUpdate` before invoking any callback. -/
def springValuesOf (e : EngineState) : List (String × ℚ) :=
  e.springs.map (fun p => (p.1, p.2.value))

/-- An `onUpdate` subscriber: it receives the frame's value set and either
returns normally or throws (modelled with `Except`). -/
def SpringCallback : Type := List (String × ℚ) → Except String Unit

/-- The `try { callback(...) } catch (error) { console.error(...) }` wrapper
around one callback inside `notifyUpdate`: a thrown error is caught and
turned into a log entry (`some err`), never propagated. -/
def runCallbackCaught (cb : SpringCallback) (values : List (String × ℚ)) :
    Option String :=
  match cb values with
  | .ok _ => none
  | .error err => some err

/-- `SpringPhysicsService.notifyUpdate()`: build the value set once, then
invoke every callback on it, isolating each with try/catch.  The returned
list is the per-callback outcome (the caught-and-logged error, if any). -/
def notifyUpdate (callbacks : List SpringCallback) (e : EngineState) :
    List (Option String) :=
  if callbacks.isEmpty then []
  else
    let springValues := springValuesOf e
    callbacks.map (fun cb => runCallbackCaught cb springValues)

/-! ## Scroll Animation Orchestrator -/

/-- One record of `ScrollAnimationOrchestrator.sectionPositions`. -/
structure SectionPos where
  top : ℚ
  height : ℚ
  center : ℚ
  deriving DecidableEq, Repr

/-- One element of the per-frame output of `calculateLabelAnimations`. -/
structure LabelAnim where
  index : ℕ
  labelProgress : ℚ
  opacity : ℚ
  scale : ℚ
  yOffset : ℚ
  isActive : Bool
  deriving DecidableEq, Repr

/-- The orchestrator configuration fields used by the embedded operations,
with the values of `SCROLL_ANIMATION_CONFIG` from
`src/config/scrollAnimationConfig.js`. -/
structure OrchConfig where
  labelFadeRange : ℚ
  labelScaleMin : ℚ
  labelScaleMax : ℚ
  labelYOffsetMax : ℚ
  scrollSpringK : ℚ
  scrollSpringC : ℚ
  scrubberSpringK : ℚ
  scrubberSpringC : ℚ
  minimodeSpringK : ℚ
  minimodeSpringC : ℚ
  deriving DecidableEq, Repr

/-- `SCROLL_ANIMATION_CONFIG`: fadeRange 0.15, scaleMin 0.85, scaleMax 1.15,
yOffsetMax 10, scroll/scrubber springs k 0.9 c 0.95, minimode spring
k 0.6 c 0.8. -/
def scrollAnimationConfig : OrchConfig :=
  { labelFadeRange := 3/20
    labelScaleMin := 17/20
    labelScaleMax := 23/20
    labelYOffsetMax := 10
    scrollSpringK := 9/10
    scrollSpringC := 19/20
    scrubberSpringK := 9/10
    scrubberSpringC := 19/20
    minimodeSpringK := 3/5
    minimodeSpringC := 4/5 }

/-- `ScrollAnimationOrchestrator.calculateLabelAnimations(scrollProgress)`:
one record per section, computed from the distance between the spring-smoothed
scroll offset and the section's center, normalized by the viewport height. -/
def calculateLabelAnimations (cfg : OrchConfig) (sectionPositions : List SectionPos)
    (documentHeight viewportHeight scrollProgress : ℚ) : List LabelAnim :=
  if sectionPositions.length = 0 then []
  else
    let maxScroll := documentHeight - viewportHeight
    let currentScrollY := scrollProgress * maxScroll
    sectionPositions.enum.map (fun ip =>
      let index : ℕ := ip.1
      let position : SectionPos := ip.2
      let denom : ℕ := sectionPositions.length - 1
      let labelProgress := (index : ℚ) / (if denom = 0 then 1 else (denom : ℚ))
      let distance := |currentScrollY - position.center| / viewportHeight
      let opacity := max 0 (min 1 (1 - distance / cfg.labelFadeRange))
      let scaleRange := cfg.labelScaleMax - cfg.labelScaleMin
      let scale := cfg.labelScaleMin + opacity * scaleRange
      let yOffset := opacity * (-cfg.labelYOffsetMax)
      let isActive := decide (distance < 1/2)
      { index := index
        labelProgress := labelProgress
        opacity := opacity
        scale := scale
        yOffset := yOffset
        isActive := isActive })

/-- `ScrollAnimationOrchestrator` runtime state.  The subscriber callbacks
and the raw `sections` list are not modelled (only their measured geometry
is); the engine singleton it drives is carried alongside. -/
structure OrchState where
  isInitialized : Bool
  isActive : Bool
  sectionPositions : List SectionPos
  documentHeight : ℚ
  viewportHeight : ℚ
  currentScrollProgress : ℚ
  minimodeActive : Bool
  engine : EngineState
  deriving DecidableEq

/-- Result of an orchestrator operation: the new state, the `window.scrollTo`
targets issued, and the `console.warn` diagnostics emitted. -/
structure OrchResult where
  state : OrchState
  scrollCommands : List ℚ
  log : List String
  deriving DecidableEq

/-- `ScrollAnimationOrchestrator.init(sections, callbacks)`: warn and do
nothing when already initialized; otherwise store the measured geometry
(DOM measurement is supplied as input) and create the four springs with the
configured coefficients. -/
def orchInit (measured : List SectionPos) (documentHeight viewportHeight : ℚ)
    (o : OrchState) : OrchState × List String :=
  if o.isInitialized then (o, ["Orchestrator already initialized"])
  else
    let cfg := scrollAnimationConfig
    let e1 := createSpring "scroll-main" 0 0 cfg.scrollSpringK cfg.scrollSpringC o.engine
    let e2 := createSpring "scrubber-fill" 0 0 cfg.scrubberSpringK cfg.scrubberSpringC e1
    let e3 := createSpring "minimode-scale" 1 1 cfg.minimodeSpringK cfg.minimodeSpringC e2
    let e4 := createSpring "minimode-y" 0 0 cfg.minimodeSpringK cfg.minimodeSpringC e3
    ({ o with isInitialized := true
              sectionPositions := measured
              documentHeight := documentHeight
              viewportHeight := viewportHeight
              engine := e4 }, [])

/-- `ScrollAnimationOrchestrator.scrollToProgress(progress, smooth)`:
clamp to [0,1]; smooth mode retargets the scroll and scrubber springs and
issues a smooth native scroll; instant mode scrolls natively and snaps both
spring values. -/
def scrollToProgress (progress : ℚ) (smooth : Bool) (o : OrchState) : OrchResult :=
  let clampedProgress := max 0 (min 1 progress)
  let maxScroll := o.documentHeight - o.viewportHeight
  let targetScrollY := clampedProgress * maxScroll
  if smooth then
    let e1 := (updateTarget "scroll-main" clampedProgress o.engine).1
    let e2 := (updateTarget "scrubber-fill" clampedProgress e1).1
    { state := { o with engine := e2 }, scrollCommands := [targetScrollY], log := [] }
  else
    let e1 := (setValue "scroll-main" clampedProgress o.engine).1
    let e2 := (setValue "scrubber-fill" clampedProgress e1).1
    { state := { o with engine := e2 }, scrollCommands := [targetScrollY], log := [] }

/-- `ScrollAnimationOrchestrator.scrollToSection(sectionIndex, smooth)`:
warn and do nothing for an out-of-range index, otherwise delegate to
`scrollToProgress` with `position.top / maxScroll`.  Note the division is
unguarded in the source; its IEEE behavior at `maxScroll = 0` is modelled
below with `JSNum` (the `ℚ` division here is the junk value 0). -/
def scrollToSection (sectionIndex : ℤ) (smooth : Bool) (o : OrchState) : OrchResult :=
  if sectionIndex < 0 ∨ (o.sectionPositions.length : ℤ) ≤ sectionIndex then
    { state := o, scrollCommands := [],
      log := ["Invalid section index: " ++ toString sectionIndex] }
  else
    let position := o.sectionPositions.getD sectionIndex.toNat ⟨0, 0, 0⟩
    let maxScroll := o.documentHeight - o.viewportHeight
    let progress := position.top / maxScroll
    scrollToProgress progress smooth o

/-- `ScrollAnimationOrchestrator.handleNativeScroll()`: map the native scroll
offset to a normalized progress (guarded: 0 when the document is not
scrollable) and retarget the scroll and scrubber springs. -/
def handleNativeScroll (scrollY : ℚ) (o : OrchState) : OrchState :=
  let maxScroll := o.documentHeight - o.viewportHeight
  let progress := if maxScroll > 0 then scrollY / maxScroll else 0
  let e1 := (updateTarget "scroll-main" progress o.engine).1
  let e2 := (updateTarget "scrubber-fill" progress e1).1
  { o with engine := e2 }

/-! ## IEEE special values for the unguarded division in `scrollToSection`

`ℚ` cannot express the NaN / Infinity a JavaScript division by zero
produces, so the progress pipeline of `scrollToSection` /
`handleNativeScroll` / `scrollToProgress` is modelled once more over a small
JS-number type with IEEE semantics for the operations that pipeline uses
(division, `Math.min`, `Math.max`). -/

/-- A JavaScript number: finite (signed zero not distinguished), NaN, or an
infinity. -/
inductive JSNum where
  | fin (q : ℚ)
  | nan
  | posInf
  | negInf
  deriving DecidableEq, Repr

/-- JavaScript division for the cases reachable here: finite/finite with the
IEEE zero-denominator rule (`0/0 = NaN`, `x/0 = ±Infinity`), NaN and
infinite operands propagated as in IEEE-754. -/
def jsDiv (a b : JSNum) : JSNum :=
  match a, b with
  | .nan, _ => .nan
  | _, .nan => .nan
  | .fin x, .fin y =>
      if y ≠ 0 then .fin (x / y)
      else if x = 0 then .nan
      else if 0 < x then .posInf else .negInf
  | .fin _, .posInf => .fin 0
  | .fin _, .negInf => .fin 0
  | .posInf, .fin y => if 0 ≤ y then .posInf else .negInf
  | .negInf, .fin y => if 0 ≤ y then .negInf else .posInf
  | .posInf, .posInf => .nan
  | .posInf, .negInf => .nan
  | .negInf, .posInf => .nan
  | .negInf, .negInf => .nan

/-- `Math.min`: NaN if either argument is NaN, otherwise the smaller with
`-Infinity < finite < Infinity`. -/
def jsMin (a b : JSNum) : JSNum :=
  match a, b with
  | .nan, _ => .nan
  | _, .nan => .nan
  | .negInf, _ => .negInf
  | _, .negInf => .negInf
  | .fin x, .fin y => .fin (min x y)
  | .fin x, .posInf => .fin x
  | .posInf, .fin y => .fin y
  | .posInf, .posInf => .posInf

/-- `Math.max`: NaN if either argument is NaN, otherwise the larger. -/
def jsMax (a b : JSNum) : JSNum :=
  match a, b with
  | .nan, _ => .nan
  | _, .nan => .nan
  | .posInf, _ => .posInf
  | _, .posInf => .posInf
  | .fin x, .fin y => .fin (max x y)
  | .fin x, .negInf => .fin x
  | .negInf, .fin y => .fin y
  | .negInf, .negInf => .negInf

/-- The progress computed by `handleNativeScroll` (guarded: ternary falls
back to 0 when `maxScroll <= 0`), over JS numbers. -/
def jsHandleNativeScrollProgress (scrollY documentHeight viewportHeight : ℚ) : JSNum :=
  let maxScroll := documentHeight - viewportHeight
  if maxScroll > 0 then jsDiv (.fin scrollY) (.fin maxScroll) else .fin 0

/-- The progress `scrollToSection` computes for an in-range index and
forwards to `scrollToProgress`: `position.top / maxScroll`, unguarded. -/
def jsScrollToSectionProgress (top documentHeight viewportHeight : ℚ) : JSNum :=
  jsDiv (.fin top) (.fin (documentHeight - viewportHeight))

/-- The clamp `Math.max(0, Math.min(1, progress))` at the top of
`scrollToProgress`; its result is the value handed to
`springPhysicsService.updateTarget` as the new spring target. -/
def jsClamp01 (progress : JSNum) : JSNum :=
  jsMax (.fin 0) (jsMin (.fin 1) progress)

/-! ## `useSectionScroll` (wheel / keyboard section classifier) -/

/-- One measured `.book-section` record of `useSectionScroll`. -/
structure ScrollSection where
  top : ℚ
  bottom : ℚ
  height : ℚ
  deriving DecidableEq, Repr

/-- The world `useSectionScroll`'s handlers operate on: viewport and section
geometry, the hook's refs (`currentSectionRef`, `isScrollingRef`), and the
spring engine singleton (which this hook never references — carried here
exactly so that non-interference is expressible). -/
structure SSWorld where
  scrollTop : ℚ
  viewportHeight : ℚ
  sections : List ScrollSection
  currentSection : ℕ
  isScrolling : Bool
  engine : EngineState
  deriving DecidableEq

/-- `getCurrentSection()`: first section whose `[top, bottom)` range contains
the viewport center, defaulting to 0. -/
def getCurrentSectionSS (w : SSWorld) : ℕ :=
  let viewportCenter := w.scrollTop + w.viewportHeight / 2
  (w.sections.findIdx? (fun s =>
    decide (s.top ≤ viewportCenter) && decide (viewportCenter < s.bottom))).getD 0

/-- `scrollToSection(index)` of `useSectionScroll`: clamp, no-op when the
requested index is out of bounds, otherwise issue one native scroll to the
section top, set the scrolling flag and record the current section.  (The
600 ms timeout that clears the flag is outside the per-event model; a `none`
lookup is impossible after the guard except on an empty section list.) -/
def scrollToSectionSS (index : ℤ) (w : SSWorld) : SSWorld × List ℚ :=
  let clampedIndex := max 0 (min index ((w.sections.length : ℤ) - 1))
  if index ≠ clampedIndex then (w, [])
  else
    match w.sections[clampedIndex.toNat]? with
    | none => (w, [])
    | some sect =>
        ({ w with isScrolling := true, currentSection := clampedIndex.toNat },
         [sect.top])

/-- `handleWheel(e)` of `useSectionScroll`.  Result: new world, native scroll
targets issued, and whether `e.preventDefault()` was called. -/
def handleWheelSS (deltaY : ℚ) (w : SSWorld) : SSWorld × List ℚ × Bool :=
  if w.isScrolling then (w, [], true)
  else if |deltaY| < 5 then (w, [], false)
  else
    let currentSection := getCurrentSectionSS w
    match w.sections[currentSection]? with
    | none => (w, [], false)
    | some sect =>
        let viewportHeight := w.viewportHeight
        let scrollWithinSection := w.scrollTop - sect.top
        let isLastSection := currentSection = w.sections.length - 1
        let isFirstSection := currentSection = 0
        let isLongSection := sect.height > viewportHeight * (11/10)
        if isLongSection then
          let atSectionTop := scrollWithinSection < 50
          let atSectionBottom := sect.bottom - (w.scrollTop + viewportHeight) < 50
          if deltaY > 0 ∧ atSectionBottom then
            if isLastSection then (w, [], false)
            else
              let r := scrollToSectionSS ((currentSection : ℤ) + 1) w
              (r.1, r.2, true)
          else if deltaY < 0 ∧ atSectionTop then
            if isFirstSection then (w, [], false)
            else
              let r := scrollToSectionSS ((currentSection : ℤ) - 1) w
              (r.1, r.2, true)
          else (w, [], false)
        else
          if deltaY > 0 then
            if isLastSection then (w, [], true)
            else
              let r := scrollToSectionSS ((currentSection : ℤ) + 1) w
              (r.1, r.2, true)
          else
            if isFirstSection then (w, [], true)
            else
              let r := scrollToSectionSS ((currentSection : ℤ) - 1) w
              (r.1, r.2, true)

/-- `handleKeyDown(e)` of `useSectionScroll`. -/
def handleKeyDownSS (key : String) (w : SSWorld) : SSWorld × List ℚ × Bool :=
  if w.isScrolling then (w, [], false)
  else
    let currentSection := getCurrentSectionSS w
    if key = "ArrowDown" ∨ key = "PageDown" ∨ key = " " then
      let r := scrollToSectionSS ((currentSection : ℤ) + 1) w
      (r.1, r.2, true)
    else if key = "ArrowUp" ∨ key = "PageUp" then
      let r := scrollToSectionSS ((currentSection : ℤ) - 1) w
      (r.1, r.2, true)
    else if key = "Home" then
      let r := scrollToSectionSS 0 w
      (r.1, r.2, true)
    else if key = "End" then
      let r := scrollToSectionSS ((w.sections.length : ℤ) - 1) w
      (r.1, r.2, true)
    else (w, [], false)

/-! ## `useSectionSnap` (spring-driven snap hook) -/

/-- One measured section record of `useSectionSnap`. -/
structure SnapSection where
  offsetTop : ℚ
  height : ℚ
  isTall : Bool
  snapStart : ℚ
  snapEnd : ℚ
  deriving DecidableEq, Repr

/-- The world `useSectionSnap.snapToSection` operates on: measured sections,
hook state, viewport/document geometry, the configured spring coefficients
(`SPRING_PRESETS.SMOOTH` by default), and the spring engine singleton. -/
structure SnapWorld where
  sections : List SnapSection
  isSnapping : Bool
  currentSectionIndex : ℕ
  viewportHeight : ℚ
  scrollHeight : ℚ
  scrollY : ℚ
  springK : ℚ
  springC : ℚ
  engine : EngineState
  deriving DecidableEq

/-- `snapToSection(sectionIndex, align)` of `useSectionSnap`: compute and
clamp the target scroll, then drive it through a dedicated `section-snap`
spring in the engine — created if absent, retargeted if present — starting
the engine loop if stopped; one synchronous invocation of its
`updateScroll` subscription is modelled (scroll to the spring value, and
remove the spring once settled).  Callers only ever pass
`align = 'start' | 'center' | 'end'`. -/
def snapToSection (sectionIndex : ℕ) (align : String) (w : SnapWorld) :
    SnapWorld × List ℚ :=
  match w.sections[sectionIndex]? with
  | none => (w, [])
  | some sect =>
      if w.isSnapping then (w, [])
      else
        let viewportHeight := w.viewportHeight
        let targetScroll0 :=
          if align = "start" then sect.snapStart
          else if align = "center" then
            sect.snapStart + (sect.height - viewportHeight) / 2
          else sect.snapEnd - viewportHeight
        let maxScroll := w.scrollHeight - viewportHeight
        let targetScroll := max 0 (min targetScroll0 maxScroll)
        let w1 := { w with isSnapping := true, currentSectionIndex := sectionIndex }
        let engine1 :=
          if (getSpring "section-snap" w.engine).isNone then
            createSpring "section-snap" w.scrollY targetScroll w.springK w.springC w.engine
          else (updateTarget "section-snap" targetScroll w.engine).1
        let engine2 := if engine1.isRunning then engine1 else startLoop engine1
        match getSpring "section-snap" engine2 with
        | none => ({ w1 with engine := engine2 }, [])
        | some spring =>
            if spring.isSettled then
              ({ w1 with isSnapping := false,
                         engine := removeSpring "section-snap" engine2 },
               [spring.value])
            else ({ w1 with engine := engine2 }, [spring.value])

/-- The Euler branch of `stepSpring` in displacement coordinates: state
`(d, v) = (value - target, velocity)`; polymorphic over the field so the
same formula serves the rational dynamics and its complexification. -/
def eulerStep {K : Type} [Field K] (k c h : K) (z : K × K) : K × K :=
  let v' := z.2 + (-k * z.1 - c * z.2) * h
  (z.1 + v' * h, v')

/-- `∑ i < n, l1^i * l2^(n-1-i)`: the solution kernel of the second-order
recurrence with characteristic roots `l1`, `l2` (equal to
`(l1^n - l2^n)/(l1 - l2)` for distinct roots, `n*l1^(n-1)` for a double
root, but uniform in both cases). -/
def geomKernel {K : Type} [Field K] (l1 l2 : K) (n : ℕ) : K :=
  ∑ i in Finset.range n, l1 ^ i * l2 ^ (n - 1 - i)

/-- The settled-flag invariant the engine actually maintains: a settled
spring has zero velocity and its value within the sleep threshold of the
target (`setValue` marks a spring settled without snapping the value, so
exact equality does not hold). -/
def SettledInv (e : EngineState) : Prop :=
  0 < e.sleepThreshold ∧
  ∀ p ∈ e.springs, p.2.isSettled = true →
    p.2.velocity = 0 ∧ |p.2.value - p.2.target| < e.sleepThreshold

/-- The operation sequence of the C1 counterexample: create a spring at
target 0, then `setValue` it to 1/2000 (inside the sleep threshold but not
at the target). -/
def c1Ops : List EngineOp :=
  [.create "x" 0 0 (1/2) (7/10), .setVal "x" (1/2000)]

/-- The C3 scenario: `createSpring('x', 0, 0, 0.5, 0.7)` then
`updateTarget('x', 1)`. -/
def c3Engine : EngineState :=
  (updateTarget "x" 1 (createSpring "x" 0 0 (1/2) (7/10) initEngine)).1

/-- The C3 scenario engine after `n` frames of `step(1/60)`. -/
def c3Sim (n : ℕ) : EngineState := (stepEngine (1/60))^[n] c3Engine

/-- The exact engine state of the C3 scenario after 281 frames
(computed; used to split the long simulation into kernel-checkable chunks). -/
def c3State281 : EngineState :=
  { springs := [("x",
      { id := "x"
        value := mkRat (1830580755458669735220487401150242101652688069606586682161215583616609665956039419548638790779346818254831715333194455903348954178277585144963728807104269962169767690616720119376146254454787480758067599058587275530854758369846976878963031261655860382534487969044005436775771791397133350792577046607652551631194201549342189006071191180437690619129599629335664442055623346481262825150041331755842777720738129276557387722743640697660539323493224795147838427797374275184609759161715809110716975796339091315171308223581223044838689225295186343024443681116107673511842980729071609229737377711656232026631027172087366080668212073035715597648314425661061129410507629294080623538645850309597057437469932427883985507086138102306133295434294857752347305497487552307436466670919090538598633937962437676802775882047601567283617393678144328126698311885085742946607705460401734301822864294625153967638881) (1580630227866483646256105750531246969522134270151668719871508494188803268931621642577539285175846893775708344529053326959988385332343037554729866598312496433605327341550297299022894113715683221309767134938227128228870660436972597739667801309099226757262745143463222703119757881129949225172727826551831735937756734980547846212759211343284141700404852771175418500465744696756519212316300100524952270418135914241085643989894687806290649383605506483899158174637135244209666499264117593844219616295749577736472107883131659662538654362652917902364919337791101181013970240570165751940829273163843712732016119119872000000000000000000000000000000000000000000000000000000000000000000000000000000000000000000000000000000000000000000000000000000000000000000000000000000000000000000000000000000000000000000000000000000000000000000000000000000000000000000000000000000000000000000000000000000000000000000)
        target := 1
        velocity := mkRat (1057429238162731707524971723837848176685297595120980324088517194784808618856344247428317627503304302599157467953281935728234883845364217831831479657991698054974091559287804640584679444745414568547563258289219297920314255667532154546060984271675749171497455256974623211878598228998489332361155454039182019484586772545475800343683299940826084999678079299441993096607325811733879540365832612336863041640020596009134243679428712266468091804973981676274439162888513808818583632108438014527415870783439073730598882793452019073990234619329654697217760234576613453978981983729227477700572309121402178702084170617893839448234676345874829103220622394765539339802048937938292500516238734108266746476118932675140419987167076191027498194815466270637257964119082950659093196409246102829316888324636487011689162517856024693672265043089309450257707731232014474846689627491868891463890380721604813277441) (26343837131108060770935095842187449492035571169194478664525141569813387815527027376292321419597448229595139075484222115999806422205717292578831109971874940560088789025838288317048235228594720355162785582303785470481177673949543295661130021818320445954379085724387045051995964685499153752878797109197195598962612249675797436879320189054735695006747546186256975007762411612608653538605001675415871173635598570684760733164911463438177489726758441398319302910618920736827774987735293230736993604929159628941201798052194327708977572710881965039415322296518353016899504009502762532347154552730728545533601985331200000000000000000000000000000000000000000000000000000000000000000000000000000000000000000000000000000000000000000000000000000000000000000000000000000000000000000000000000000000000000000000000000000000000000000000000000000000000000000000000000000000000000000000000000000000000000000)
        k := 1/2
        c := 7/10
        isSettled := false })]
    isRunning := true
    autoSleep := true
    sleepThreshold := 1/1000
    maxDeltaTime := 1/10 }

/-- The exact engine state of the C3 scenario after 562 frames
(computed; used to split the long simulation into kernel-checkable chunks). -/
def c3State562 : EngineState :=
  { springs := [("x",
      { id := "x"
        value := mkRat (488774690664512285139025391636786577895751464330180337509837224015960035932981515137766199171504890918929228328956416376634801509160943221444616758485452285605195141411366825929032590916686486086264783309940198994574146731122610621269654199967092586196159481256045397418634462474295656773735602786325791151588816711037256405386394318542050273813500784746471260115161732452866138869889352971841464248581709567394822138956861815798940596981589849830259291428293900099451562202959935792438429451648766119936012724295851579553384138154284567030602631504176687638871280460084822400220588035073641280886393290261421858838645935508940638492836982329566915513879171770446389673462584221568807123678833475069855487230618264341118557157287570550151726517609978781778822903254812927292137230648010408565259103153969117848670445674639954928678136874728063162368716758808723809711768663136090361449952082973074915500755566038033638597846260722615940737710337700148912596947994808183754422627165269857057692035385157143895420356133197374306235845112769618309213771457394460153799812598509190753136489238459906718303336323110113929534499011689264783130502038338034791820449044470233714297343730799644456056673072452884736947151892535764433367896428728274934842846313518302233095576603306034447995175305767206668736997852078443406729845492729651606712167469561398096821272638461629846373916078102532572386628362883313770251856753025707813230320128870119871647507536864763940781281198114952122715329558435083615060387296852506623616624711094767880500738870297275591123256859289194650982153663468551744569629340813371703515620036268899284738645439889209219342795967739569324095344598699679084848574060399385657489798465367507030907879408317625173006760866775847583966554325829422068575023883727) (499678383449050402939589234885139348217403824703955154771069511020646033485624438207555910845279391881965571120827877663454787820779634412363256294415340138780750035178909327148152366958160351007867310734917905756792224874100088637477620780836745696545442185188234611346771359897383656752658252806134695732197305339091986534482784328042478731239123853792131502746555552349147799793023262688383557556126211382689662485893166014027554940510360730817855483892110630576339064213322818228893182799690234637004408852141031722200719966866371208719976530036105532611151405580651795987071340507591596922857159415722720999306394107819764428858294551944553966188050514731559291126701439336749221886177691324601734517944055169159055215831106581065214353172759303293772700909313212137670274962139273605109773741566173575786323098790905482509908860995528132891805174373237391292330083141802030237563103141521885662920658964183250223725629973571167117467693151741712531527352894101400406061944617894503624511397161679796342615102162411601144198954025108844335964419102665568481576649924920589489780809915638025100273676948083275564379569780911642242161736421395255926279109714663424029291272243313632565520308209326689581059276800000000000000000000000000000000000000000000000000000000000000000000000000000000000000000000000000000000000000000000000000000000000000000000000000000000000000000000000000000000000000000000000000000000000000000000000000000000000000000000000000000000000000000000000000000000000000000000000000000000000000000000000000000000000000000000000000000000000000000000000000000000000000000000000000000000000000000000000000000000000000000000000000000000000000000000000000000000000000000000000000000000000000000000000000000000000000000000000000000000000000000000000000000000000)
        target := 1
        velocity := mkRat (-124283397843846766688853829038837839065886607632477567426653673961076456340774741211061987996671369583420266315546164041884211524992486935488491777168692895742200631121935631676401834857525878654593650381088587897752527621445509271567631685464528540609131715142944495809067482732966123450265150488496759451925644374227795805532902068379004595187154498502525745798740525863439948550907416076739056282164994452254822168734994107716354396741615480615587819038813918621270554599557855153334659252381932346321851968852557685073427559727470250192454213170044366007807924545839777478530484794081454595878099575996656672267223620714169556423909681932148091982660954647679089581760329234194220760980267134358065556019412211274252361330100825161017451189030958468845699769038741104612933384774207616834660857851613131215018231598308851920221747270924878452392137240698657742232234237008026358593719995557656234125185341359456709807804984531978380614043593399715228968504925540705628888160214118942934417452134833870382221310370184125909717894371304630377470894104646731401431569823534599596553882958281363980995605867716659556436662178426212051072898504211046343668905547215171682361204042610535395461680034676562056440476119190664277904548860003884091888211458945743939994358051424639335224603009113108228212068396920021803243915896719313096858235706459661718223442062201745645237625850931809898753187330275902148686567354575416730585045380970418309491115040663605065793902791137634189642713692023628174864074343297161533567311625262272403594313394827454671216559579353407529322196504580417296615724781983271514054720291814917539710833921033673807488579863393117444874157300636888790752414957321551164739218395974583528250920012098709664847800146712427782462673731142196327036554193) (8327973057484173382326487248085655803623397078399252579517825183677433891427073970125931847421323198032759518680464627724246463679660573539387604906922335646345833919648488785802539449302672516797788512248631762613203747901668143957960346347279094942424036419803910189112855998289727612544304213435578262203288422318199775574713072134041312187318730896535525045775925872485796663217054378139725959268770189711494374764886100233792582341839345513630924731535177176272317736888713637148219713328170577283406814202350528703345332781106186811999608833935092210185856759677529933117855675126526615380952656928712016655106568463662740480971575865742566103134175245525988185445023988945820364769628188743362241965734252819317586930518443017753572552879321721562878348488553535627837916035654560085162895692769559596438718313181758041831814349925468881530086239553956521538834719030033837292718385692031427715344316069720837062093832892852785291128219195695208858789214901690006767699076964908393741856619361329939043585036040193352403315900418480738932740318377759474692944165415343158163013498593967085004561282468054592739659496348527370702695607023254265437985161911057067154854537388560542758671803488778159684321280000000000000000000000000000000000000000000000000000000000000000000000000000000000000000000000000000000000000000000000000000000000000000000000000000000000000000000000000000000000000000000000000000000000000000000000000000000000000000000000000000000000000000000000000000000000000000000000000000000000000000000000000000000000000000000000000000000000000000000000000000000000000000000000000000000000000000000000000000000000000000000000000000000000000000000000000000000000000000000000000000000000000000000000000000000000000000000000000000000000000000000000000000000000)
        k := 1/2
        c := 7/10
        isSettled := false })]
    isRunning := true
    autoSleep := true
    sleepThreshold := 1/1000
    maxDeltaTime := 1/10 }

/-- The exact engine state of the C3 scenario after 843 frames
(computed; used to split the long simulation into kernel-checkable chunks). -/
def c3State843 : EngineState :=
  { springs := [("x",
      { id := "x"
        value := mkRat (158319389948018015987178567445127199579886886462838279584473939345136994595306623110452818903063865563399808710552520842178215795231256479987584726874483110533187483392189816426075142387605904503200068562089094128230894613047557225340746284217269216691376479912734670074800923674659962040664140186590997220701836281432141790635207064916686250642745389414529340081484387140634820051012998562485816539199251960110656735821385421173329484717570733183772180973951116754347296534150230189179011389173436785810880514499876328991048196281374847530950468003889052598916933258345142680967444748524333007895178759188435608953605957911190542148544743101613112305644761137996127875852366775802605620645762439981812281271190036533621415489355469037470575107563940507326438716421475314386904675074900743214780466198461748999980793969905453697420838774783004856237498476974166050413366576406552306528195310785075140631846301210825366289280924786519811227953111969028402162025111775449404877946170395002583987279064692966836737819564171628152807152906966052621613634007176373599091955550023539197015124026388459870919745786484126529645999557502862625674514686004283878060321470767795059428604772681543804585956633740994532973014730655662087391860009572351816402769331260712045642627995957861513081418556956018805710110279358265028657532552719187004028872392452595557356740270888701925047172688904170750808357531415896988022333292266236279757719102695160056285239546993071553058884075578454834284765294949610753829307129873610891005051180950799458578395075458629219960627129340715711395263914499327928082632446008432532120541180593733874926007010220394504215181536592024507550676640655843675146106985200917805253227373372386655598159808727618879762638419158573232210507847722249193195470630960154512905492577812975565520145527863579845201600228350513146558640306548798952563509844121960641598692724431560979429001742954278473226323953904552529361667377873660069883694751653834720245948195735670761389255931358603796142757804705961361923606414344992907130688922217295494967344519477982172664857904439553774774218788889856756819941833728779457301546009520940387937926663079016769937179851994959367137249714806514606817330247476792320599806238078547948624248681103112601517002165746320944304620314500752064391754576748777228193098354941516381008130634416689023887537250005090603727039462183793092247853099176900752702727749496233026641863982500272571556579958268561738356405071767149316933886075668314212039888570332942929732779827630495842639091051278592414758211418341663512287159268230334080989646804825724306172649364439459172810725499304303958196404213279154527084991791674209281) (157961351418205745795826831083515558412161138537753270726436578000189820060449160491790447565354943888355192797631807064072143285840371644051149026806817915060022981586388394283824731604888456781985557252932383609416583615216657426651261149854478539851887845498224896617409381656698166281344199797577955076052238301639664076270728233187207590843337582122728533445712381643946862246590336446536320654309551887722553285219325663956372347519162182787656779300787408532578833018618342816720699456972925803422189241769005162294417101870398673026386148830912030220463070645228155038659575666001873584877408644544283675139360835569898068534845550551959784209014187379658386168185393864511249972588188608644818393514691851703619291313181426097645007115746894222584231544299046423325064679692807429054604698049949187570651627038033870077623475478125236073997861866079996403348190730468495047950597897004103800015745629930323033105143508947296893215262783958112816749687866804187788743395468801436376062829745881544867437560209956360195594924195742428006092733730802740322628289459687240676723706469961443662513001522853909674032601794631264577583552784982733571455219811450666213710351706220081386643987775711718232331844200441347886400401366165786027355909903659568495545536618724232605986840084503288291974058548118544341311117026942470784400531793855674940507351495532581244810901349879116695810434388220672439330902031251029047756042523391031290574107328421338563159219147756507279664515265106135213351663211317093913557841912976983638923927593742962853166020310532577914029786880638925478824413260245897929372922853818375881855157739309037978912439034075931795285417731012547221654710577648930459659876491010142405433837686076962297564757997531187202741835355409467060991618573746803077677919450291299772127649108695365713920000000000000000000000000000000000000000000000000000000000000000000000000000000000000000000000000000000000000000000000000000000000000000000000000000000000000000000000000000000000000000000000000000000000000000000000000000000000000000000000000000000000000000000000000000000000000000000000000000000000000000000000000000000000000000000000000000000000000000000000000000000000000000000000000000000000000000000000000000000000000000000000000000000000000000000000000000000000000000000000000000000000000000000000000000000000000000000000000000000000000000000000000000000000000000000000000000000000000000000000000000000000000000000000000000000000000000000000000000000000000000000000000000000000000000000000000000000000000000000000000000000000000000000000000000000000000000000000000000000000000000000000000000000000000000000000000000000000000000000000000000)
        target := 1
        velocity := mkRat (10700503801658425805296505179174673198461353385010584285338670686661384562628695659402166407701552818179542120425135920086919133048852844182436530117034546000621543571445358863586319780250421389403258919859190535991898976013351826752726293327942812187528815498004988525493329096667874740523856703919626996035216880171456311158152616632654552736005179821268827386488679613241774871101907503498743218879461230261054185494281151897294417458273338136279465266787998920925376496312537973634942323856972311359486426582944897653887238514648881456447397768259857304251645277328992139360545391175496744707888202359472518441884120205121349434778480425646952819150400015349369256722455316836795874202148753283932528938810009469268872527115598095771779329116236700457012255427832060661773907594388302962360033213936049918318823625151327498111106374084281496796570413367175550010203739664025570016250660919525208544480726059160098534066451296699734300889745468846070523172239816490933762532378353909596188273623870335702238214830082877064608937020618528193929065300908595501412463114501094716941396917610882310700973128320178670276752000534405858374190945593140825150994271741467871371680507601717968550482445165406509298506390979347304492358786375152954639513249858939165853501652381042260854925690398579751277307730644034241355778394430480575570178877678998364707068059934566266322586759455331754154602656119383674530562782834421278054308060213407583614826139546647105044469870666874530667333533715377651191035346585146176394272282865945416290281918619649939726691674492759529918700314979919053283423974264207635691774211955619035135117079217039980400237987415867104245893568581466154629076321863623336754300249032546576875600211005250510893978330355293488927196796522412007141921416058609116949213388156501428303303162390887009255973852998465742717710152756078260220059085412664229868030000407056975973338806154234834297486485217724420665881258273285038844664580043111940222484378784780654960609218347308026336158850939003931026189347403715285268804790568694294113856196627110678343423699661656365682314956246118092729664519639652334063369162655172826744663631328092222126350422900163534327946080977251475674803214625801960087263962492139637744113411446006299835183765877881687392817420114967298015254565732791874102885531038567490133472781825029977434751939514025919220170040664341329393919958048742408360100905609811155016804943709616317731725726378387008574166723496960161540549065245217927081075987337564934781505872504810201774027054721857149219345090295219691861083462056163457327258892287069411534163468419594262007291159360459916221734468199860999939579385132961) (2632689190303429096597113851391925973536018975629221178773942966669830334340819341529840792755915731472586546627196784401202388097339527400852483780113631917667049693106473238063745526748140946366425954215539726823609726920277623777521019164241308997531464091637081610290156360944969438022403329959632584600870638360661067937845470553120126514055626368712142224095206360732447704109838940775605344238492531462042554753655427732606205791986036379794279655013123475542980550310305713612011657616215430057036487362816752704906951697839977883773102480515200503674384510753802583977659594433364559747956810742404727918989347259498301142247425842532663070150236456327639769469756564408520832876469810144080306558578197528393654855219690434960750118595781570376403859071650773722084411328213457150910078300832486459510860450633897834627057924635420601233297697767999940055803178841141584132509964950068396666929093832172050551752391815788281553587713065968546945828131113403129812389924480023939601047162431359081123959336832606003259915403262373800101545562180045672043804824328120677945395107832690727708550025380898494567210029910521076293059213083045559524253663524177770228505861770334689777399796261861970538864070007355798106673356102763100455931831727659474925758943645403876766447334741721471532900975801975739021851950449041179740008863230927915675122524925543020746848355831318611596840573137011207322181700520850484129267375389850521509568455473688976052653652462608454661075254418435586889194386855284898559297365216283060648732126562382714219433671842209631900496448010648757980406887670764965489548714230306264697585962321817299648540650567932196588090295516875787027578509627482174327664608183502373423897294767949371626079299958853120045697255923491117683193642895780051294631990838188329535460818478256095232000000000000000000000000000000000000000000000000000000000000000000000000000000000000000000000000000000000000000000000000000000000000000000000000000000000000000000000000000000000000000000000000000000000000000000000000000000000000000000000000000000000000000000000000000000000000000000000000000000000000000000000000000000000000000000000000000000000000000000000000000000000000000000000000000000000000000000000000000000000000000000000000000000000000000000000000000000000000000000000000000000000000000000000000000000000000000000000000000000000000000000000000000000000000000000000000000000000000000000000000000000000000000000000000000000000000000000000000000000000000000000000000000000000000000000000000000000000000000000000000000000000000000000000000000000000000000000000000000000000000000000000000000000000000000000000000000000000000000000000000000)
        k := 1/2
        c := 7/10
        isSettled := false })]
    isRunning := true
    autoSleep := true
    sleepThreshold := 1/1000
    maxDeltaTime := 1/10 }

/-- The engine state the C3 scenario reaches at frame 1122: the spring is
snapped exactly to the target and the loop has auto-slept. -/
def c3State1122 : EngineState :=
  { springs := [("x",
      { id := "x"
        value := 1
        target := 1
        velocity := 0
        k := 1/2
        c := 7/10
        isSettled := true })]
    isRunning := false
    autoSleep := true
    sleepThreshold := 1/1000
    maxDeltaTime := 1/10 }

/-- Concrete world for the wheel-classifier witness: two 800px sections,
800px viewport, resting at the top of section 0. -/
def c9World : SSWorld :=
  { scrollTop := 0
    viewportHeight := 800
    sections := [{ top := 0, bottom := 800, height := 800 },
                 { top := 800, bottom := 1600, height := 800 }]
    currentSection := 0
    isScrolling := false
    engine := initEngine }

/-- The same world scrolled to the last section. -/
def c9WorldLast : SSWorld :=
  { c9World with scrollTop := 800, currentSection := 1 }

/-! ## Groundwork for the proofs

Batteries marks the `Rat` arithmetic operations `@[irreducible]`, which
blocks the `decide` tactic's evaluator (the kernel itself reduces them
fine); restore default reducibility so closed rational computations can be
settled by `decide`. -/

set_option allowUnsafeReducibility true in
attribute [semireducible] Rat.add Rat.mul Rat.sub Rat.inv Rat.div

lemma mapGet_mapSet_self (m : List (String × Spring)) (key : String) (v : Spring) :
    mapGet (mapSet m key v) key = some v := by
  induction m with
  | nil => simp [mapGet, mapSet]
  | cons p rest ih =>
      obtain ⟨k0, v0⟩ := p
      by_cases h : k0 = key
      · simp [mapGet, mapSet, h]
      · simp [mapGet, mapSet, h, ih]

lemma mapGet_mapSet_other (m : List (String × Spring)) (key key2 : String)
    (v : Spring) (h : key2 ≠ key) :
    mapGet (mapSet m key v) key2 = mapGet m key2 := by
  have hne : ¬ key = key2 := fun h' => h h'.symm
  induction m with
  | nil => simp [mapGet, mapSet, hne]
  | cons p rest ih =>
      obtain ⟨k0, v0⟩ := p
      by_cases hk : k0 = key
      · subst hk
        simp [mapGet, mapSet, hne]
      · simp [mapGet, mapSet, hk, ih]

/-- C6, counterexample: `createSpring` on an id that already exists and was
never removed silently overwrites the existing spring — here the value 5
spring is replaced and `getValue` drops from 5 to 0 — instead of failing or
warning and leaving it unchanged. -/
theorem c6_counterexample :
    getValue "x" (createSpring "x" 5 5 (1/2) (7/10) initEngine) = some 5 ∧
    getValue "x" (createSpring "x" 0 0 (9/10) (19/20)
      (createSpring "x" 5 5 (1/2) (7/10) initEngine)) = some 0 := by
  constructor <;> rfl

/-- C6 (corrected): `createSpring` with an id that is still present does not
fail or preserve the old spring: it unconditionally replaces it with a fresh
spring built from the arguments (velocity 0, not settled).  Other springs
are untouched, and re-creating after `removeSpring` registers the same
fresh spring. -/
theorem c6_createSpring_replaces (id : String) (v t k c : ℚ) (e : EngineState) :
    getSpring id (createSpring id v t k c e) =
      some { id := id, value := v, target := t, velocity := 0, k := k, c := c,
             isSettled := false } ∧
    (∀ id2, id2 ≠ id →
      getSpring id2 (createSpring id v t k c e) = getSpring id2 e) ∧
    getSpring id (createSpring id v t k c (removeSpring id e)) =
      some { id := id, value := v, target := t, velocity := 0, k := k, c := c,
             isSettled := false } := by
  refine ⟨?_, ?_, ?_⟩
  · simpa [getSpring, createSpring] using
      mapGet_mapSet_self e.springs id _
  · intro id2 h
    simpa [getSpring, createSpring] using
      mapGet_mapSet_other e.springs id id2 _ h
  · simpa [getSpring, createSpring, removeSpring] using
      mapGet_mapSet_self (mapDelete e.springs id) id _

/-- Witness for C6 at a concrete input: re-creating the id `"x"` replaces
the spring, the unrelated id `"y"` is untouched. -/
theorem c6_createSpring_replaces_witness :
    getSpring "x" (createSpring "x" 0 0 (9/10) (19/20)
      (createSpring "x" 5 5 (1/2) (7/10) initEngine)) =
      some { id := "x", value := 0, target := 0, velocity := 0, k := 9/10,
             c := 19/20, isSettled := false } ∧
    getSpring "y" (createSpring "x" 0 0 (9/10) (19/20)
      (createSpring "x" 5 5 (1/2) (7/10) initEngine)) =
      getSpring "y" (createSpring "x" 5 5 (1/2) (7/10) initEngine) :=
  ⟨(c6_createSpring_replaces "x" 0 0 (9/10) (19/20)
      (createSpring "x" 5 5 (1/2) (7/10) initEngine)).1,
   (c6_createSpring_replaces "x" 0 0 (9/10) (19/20)
      (createSpring "x" 5 5 (1/2) (7/10) initEngine)).2.1 "y" (by decide)⟩

/-- C5, counterexample: the section-jump routine of the snap hook
(`useSectionSnap.snapToSection`) does touch the Spring Engine.  From an
engine with no springs, snapping to section 0 creates (and retargets) a
dedicated `section-snap` spring and starts the loop: the engine state before
and after is not identical, and the transition is spring-driven rather than
native-scroll only. -/
theorem c5_counterexample :
    let w0 : SnapWorld :=
      { sections := [{ offsetTop := 0, height := 800, isTall := false,
                       snapStart := 0, snapEnd := 800 }]
        isSnapping := false
        currentSectionIndex := 0
        viewportHeight := 800
        scrollHeight := 800
        scrollY := 100
        springK := 1/2
        springC := 7/10
        engine := initEngine }
    getSpring "section-snap" ((snapToSection 0 "start" w0).1).engine =
      some { id := "section-snap", value := 100, target := 0, velocity := 0,
             k := 1/2, c := 7/10, isSettled := false } ∧
    ((snapToSection 0 "start" w0).1).engine ≠ w0.engine := by
  constructor
  · rfl
  · decide

/-- C5 (corrected): the wheel-classifier hook (`useSectionScroll`) is the
component that never touches springs — its wheel handler, keyboard handler
and section-jump routine leave the Spring Engine state literally unchanged
and act only through native scroll commands — whereas `useSectionSnap`'s
`snapToSection` creates, retargets and removes a `section-snap` spring (see
the counterexample). -/
theorem c5_wheel_hook_preserves_engine (deltaY : ℚ) (key : String) (idx : ℤ)
    (w : SSWorld) :
    ((handleWheelSS deltaY w).1).engine = w.engine ∧
    ((handleKeyDownSS key w).1).engine = w.engine ∧
    ((scrollToSectionSS idx w).1).engine = w.engine := by
  have hscroll : ∀ (j : ℤ) (w' : SSWorld), ((scrollToSectionSS j w').1).engine = w'.engine := by
    intro j w'
    unfold scrollToSectionSS
    dsimp only
    split
    · rfl
    · split
      · rfl
      · rfl
  refine ⟨?_, ?_, hscroll idx w⟩
  · unfold handleWheelSS
    dsimp only
    repeat' split <;> try rfl
    all_goals simp [hscroll]
  · unfold handleKeyDownSS
    dsimp only
    repeat' split <;> try rfl
    all_goals simp [hscroll]

/-- C8 (confirmed): `notifyUpdate` delivers the same consolidated frame
value set to every registered callback, one outcome per callback in
registration order; a callback that throws is caught (its error becomes a
log entry) and has no effect on the delivery to any other callback, and
`notifyUpdate` always returns normally, so the frame loop is not broken. -/
theorem c8_callbacks_isolated (callbacks : List SpringCallback) (e : EngineState) :
    (notifyUpdate callbacks e).length = callbacks.length ∧
    ∀ i : ℕ, (notifyUpdate callbacks e)[i]? =
      (callbacks[i]?).map (fun cb => runCallbackCaught cb (springValuesOf e)) := by
  unfold notifyUpdate
  by_cases hc : callbacks.isEmpty
  · have hnil : callbacks = [] := List.isEmpty_iff.mp hc
    subst hnil
    simp
  · simp [hc, List.getElem?_map]

/-- C10 (confirmed): when the measured document height equals the viewport
height (`maxScroll = 0`), `handleNativeScroll`'s guarded mapping yields
progress 0, but `scrollToSection`'s unguarded `top / maxScroll` divides by
zero: the progress forwarded to `scrollToProgress` is NaN for `top = 0` and
Infinity for `top > 0`, and in the NaN case the clamp
`Math.max(0, Math.min(1, progress))` propagates NaN into the spring target
set by `updateTarget` (a non-finite target). -/
theorem c10_zero_maxscroll_unguarded (h scrollY top : ℚ) (htop : 0 < top) :
    jsHandleNativeScrollProgress scrollY h h = .fin 0 ∧
    jsScrollToSectionProgress 0 h h = .nan ∧
    jsScrollToSectionProgress top h h = .posInf ∧
    jsClamp01 (jsScrollToSectionProgress 0 h h) = .nan := by
  have hms : h - h = 0 := sub_self h
  refine ⟨?_, ?_, ?_, ?_⟩
  · unfold jsHandleNativeScrollProgress
    simp [hms]
  · unfold jsScrollToSectionProgress jsDiv
    simp [hms]
  · unfold jsScrollToSectionProgress jsDiv
    simp [hms, htop, ne_of_gt htop]
  · unfold jsScrollToSectionProgress jsDiv jsClamp01 jsMin jsMax
    simp [hms]

/-- Witness for C10 at a concrete input: document height = viewport height
= 800; a section with top offset 0 produces a NaN progress and a NaN spring
target, one with top offset 100 produces Infinity, while the scroll
handler's guarded mapping still produces 0. -/
theorem c10_zero_maxscroll_unguarded_witness :
    jsHandleNativeScrollProgress 0 800 800 = .fin 0 ∧
    jsScrollToSectionProgress 0 800 800 = .nan ∧
    jsScrollToSectionProgress 100 800 800 = .posInf ∧
    jsClamp01 (jsScrollToSectionProgress 0 800 800) = .nan := by
  have h := c10_zero_maxscroll_unguarded 800 0 100 (by norm_num)
  exact ⟨h.1, h.2.1, h.2.2.1, h.2.2.2⟩

/-- C7 (confirmed): every usage error is a warned no-op and cannot throw
(all embedded operations are total functions): `updateTarget`, `setValue`
and `setConfig` with an unknown spring id warn and return the engine
unchanged; `scrollToSection` with an out-of-range index warns, issues no
scroll and returns the orchestrator (and engine) unchanged; `init` on an
already-initialized orchestrator warns and changes nothing. -/
theorem c7_usage_errors_noop :
    (∀ (id : String) (t v : ℚ) (k? c? : Option ℚ) (e : EngineState),
      getSpring id e = none →
        updateTarget id t e = (e, ["Spring not found: " ++ id]) ∧
        setValue id v e = (e, ["Spring not found: " ++ id]) ∧
        setConfig id k? c? e = (e, ["Spring not found: " ++ id])) ∧
    (∀ (idx : ℤ) (smooth : Bool) (o : OrchState),
      idx < 0 ∨ (o.sectionPositions.length : ℤ) ≤ idx →
        scrollToSection idx smooth o =
          { state := o, scrollCommands := [],
            log := ["Invalid section index: " ++ toString idx] }) ∧
    (∀ (measured : List SectionPos) (dh vh : ℚ) (o : OrchState),
      o.isInitialized = true →
        orchInit measured dh vh o = (o, ["Orchestrator already initialized"])) := by
  refine ⟨?_, ?_, ?_⟩
  · intro id t v k? c? e h
    unfold getSpring at h
    exact ⟨by simp [updateTarget, h], by simp [setValue, h], by simp [setConfig, h]⟩
  · intro idx smooth o h
    unfold scrollToSection
    rw [if_pos h]
  · intro measured dh vh o h
    simp [orchInit, h]

/-- Witness for C7 at concrete inputs: an unknown id `"ghost"` on the fresh
engine, section index 5 on an orchestrator with no measured sections, and a
second `init` on an initialized orchestrator. -/
theorem c7_usage_errors_noop_witness :
    (updateTarget "ghost" 1 initEngine =
      (initEngine, ["Spring not found: " ++ "ghost"])) ∧
    (let o0 : OrchState :=
      { isInitialized := true, isActive := false, sectionPositions := []
        documentHeight := 2400, viewportHeight := 800
        currentScrollProgress := 0, minimodeActive := false
        engine := initEngine }
     scrollToSection 5 true o0 =
      { state := o0, scrollCommands := [],
        log := ["Invalid section index: " ++ toString (5 : ℤ)] } ∧
     orchInit [] 2400 800 o0 = (o0, ["Orchestrator already initialized"])) :=
  ⟨(c7_usage_errors_noop.1 "ghost" 1 0 none none initEngine rfl).1,
   c7_usage_errors_noop.2.1 5 true _ (Or.inr (by decide)),
   c7_usage_errors_noop.2.2 [] 2400 800 _ rfl⟩

/-- C2 (confirmed): in `step(dt)`, every spring map entry is rewritten by the
per-spring update, and that update is exactly: an already-settled spring is
returned unchanged; a non-settled spring with `|velocity| < sleepThreshold`
and `|value - target| < sleepThreshold` is snapped (`value := target`,
`velocity := 0`, `isSettled := true`); any other non-settled spring is
integrated by semi-implicit Euler,
`velocity += (-k*(value-target) - c*velocity) * dt` then
`value += velocity * dt` with the updated velocity. -/
theorem c2_step_semantics (thr dt : ℚ) (s : Spring) (e : EngineState) :
    (stepEngine dt e).springs =
      e.springs.map (fun p => (p.1, stepSpring e.sleepThreshold dt p.2)) ∧
    stepSpring thr dt s =
      (if s.isSettled then s
       else if |s.velocity| < thr ∧ |s.value - s.target| < thr then
         { s with value := s.target, velocity := 0, isSettled := true }
       else
         { s with
             velocity := s.velocity +
               (-s.k * (s.value - s.target) - s.c * s.velocity) * dt
             value := s.value + (s.velocity +
               (-s.k * (s.value - s.target) - s.c * s.velocity) * dt) * dt }) := by
  constructor
  · rfl
  · unfold stepSpring
    dsimp only
    split
    · rfl
    · split
      · rfl
      · obtain ⟨i, v, t, vel, k, c, st⟩ := s
        simp only [Spring.mk.injEq, true_and, and_true]
        refine ⟨?_, ?_⟩ <;> ring

/-- C4, counterexample: three uniformly spaced 800px sections with an 800px
viewport and document height 2400.  At progress 1/2 the scroll offset is
800, so the viewport center (800 + 800/2 = 1200) coincides exactly with the
center of section 1 — that section is the one currently centered in the
viewport — yet its label has opacity 0 and `isActive = false`, because the
code measures distance from the scroll *top* (`progress * maxScroll`) to
the section center, not from the viewport center. -/
theorem c4_counterexample :
    ((calculateLabelAnimations scrollAnimationConfig
        [{ top := 0, height := 800, center := 400 },
         { top := 800, height := 800, center := 1200 },
         { top := 1600, height := 800, center := 2000 }]
        2400 800 (1/2))[1]?).map
      (fun la => (la.opacity, la.isActive)) = some (0, false) := by
  decide

/-- C4 (corrected): the label whose section center coincides with the
current scroll *offset* (`progress * maxScroll`, the viewport top — not the
viewport center) peaks at exactly `opacity = 1` with `isActive = true`; and
every label whose normalized distance
`|progress * maxScroll - center| / viewportHeight` is at least `fadeRange`
has `opacity = 0`. -/
theorem c4_label_proximity (cfg : OrchConfig) (sections : List SectionPos)
    (dh vh progress : ℚ) (i : ℕ) (pos : SectionPos)
    (hi : sections[i]? = some pos) (hf : 0 < cfg.labelFadeRange) :
    (progress * (dh - vh) = pos.center →
      ((calculateLabelAnimations cfg sections dh vh progress)[i]?).map
        (fun la => (la.opacity, la.isActive)) = some (1, true)) ∧
    (cfg.labelFadeRange ≤ |progress * (dh - vh) - pos.center| / vh →
      ((calculateLabelAnimations cfg sections dh vh progress)[i]?).map
        (fun la => la.opacity) = some 0) := by
  have hne : ¬ sections.length = 0 := by
    intro h0
    rw [List.length_eq_zero.mp h0] at hi
    simp at hi
  unfold calculateLabelAnimations
  rw [if_neg hne]
  constructor
  · intro h
    simp only [List.getElem?_map, List.getElem?_enum, hi, Option.map_some']
    simp only [h, sub_self, abs_zero, zero_div, sub_zero, min_self]
    have hmax : max (0 : ℚ) 1 = 1 := by norm_num
    simp [hmax]
  · intro hd
    simp only [List.getElem?_map, List.getElem?_enum, hi, Option.map_some']
    have h1 : (1 : ℚ) ≤ |progress * (dh - vh) - pos.center| / vh / cfg.labelFadeRange :=
      (one_le_div hf).mpr hd
    have h2 : 1 - |progress * (dh - vh) - pos.center| / vh / cfg.labelFadeRange ≤ 0 := by
      linarith
    have hmin : min (1 : ℚ)
        (1 - |progress * (dh - vh) - pos.center| / vh / cfg.labelFadeRange) =
        1 - |progress * (dh - vh) - pos.center| / vh / cfg.labelFadeRange :=
      min_eq_right (by linarith)
    simp only [hmin]
    simp [max_eq_left h2]

/-- Witness for C4 at concrete inputs: a single 800px section with center
400; with document height 1200 and viewport 800, progress 1 puts the scroll
offset exactly at the center (opacity 1, active), while progress 0 leaves a
normalized distance of 1/2 ≥ fadeRange (opacity 0). -/
theorem c4_label_proximity_witness :
    ((calculateLabelAnimations scrollAnimationConfig
        [{ top := 0, height := 800, center := 400 }] 1200 800 1)[0]?).map
      (fun la => (la.opacity, la.isActive)) = some (1, true) ∧
    ((calculateLabelAnimations scrollAnimationConfig
        [{ top := 0, height := 800, center := 400 }] 1200 800 0)[0]?).map
      (fun la => la.opacity) = some 0 :=
  ⟨(c4_label_proximity scrollAnimationConfig _ 1200 800 1 0
      { top := 0, height := 800, center := 400 } rfl
      (by norm_num [scrollAnimationConfig])).1 (by norm_num),
   (c4_label_proximity scrollAnimationConfig _ 1200 800 0 0
      { top := 0, height := 800, center := 400 } rfl
      (by norm_num [scrollAnimationConfig])).2 (by
        norm_num [scrollAnimationConfig])⟩

lemma scrollToSectionSS_valid (w : SSWorld) (j : ℕ) (sect : ScrollSection)
    (hj : w.sections[j]? = some sect) :
    scrollToSectionSS (j : ℤ) w =
      ({ w with isScrolling := true, currentSection := j }, [sect.top]) := by
  have hlen : j < w.sections.length := by
    rcases List.getElem?_eq_some_iff.mp hj with ⟨h, _⟩
    exact h
  have hclamp : max 0 (min (j : ℤ) ((w.sections.length : ℤ) - 1)) = (j : ℤ) := by
    omega
  unfold scrollToSectionSS
  rw [hclamp, if_neg (by omega : ¬ (j : ℤ) ≠ (j : ℤ))]
  simp only [Int.toNat_natCast, hj]

/-- C9 (confirmed): in `handleWheel`, a delta with `|deltaY| < 5` is ignored
(no scroll command, no state change); on a short section (height at most
110% of the viewport), a qualifying delta issues exactly one native scroll
to the adjacent section in the delta's direction and records the jump;
scrolling down on the last section or up on the first is a prevented no-op
with no scroll command and no diagnostic. -/
theorem c9_wheel_classifier (deltaY : ℚ) (w : SSWorld) :
    (|deltaY| < 5 → handleWheelSS deltaY w = (w, [], w.isScrolling)) ∧
    (∀ i sect,
      w.isScrolling = false → 5 ≤ |deltaY| →
      getCurrentSectionSS w = i → w.sections[i]? = some sect →
      sect.height ≤ w.viewportHeight * (11/10) →
        (∀ next, 0 < deltaY → w.sections[i + 1]? = some next →
          handleWheelSS deltaY w =
            ({ w with isScrolling := true, currentSection := i + 1 },
             [next.top], true)) ∧
        (∀ prev, deltaY < 0 → 0 < i → w.sections[i - 1]? = some prev →
          handleWheelSS deltaY w =
            ({ w with isScrolling := true, currentSection := i - 1 },
             [prev.top], true)) ∧
        (0 < deltaY → i = w.sections.length - 1 →
          handleWheelSS deltaY w = (w, [], true)) ∧
        (deltaY < 0 → i = 0 → handleWheelSS deltaY w = (w, [], true))) := by
  constructor
  · intro hsmall
    unfold handleWheelSS
    by_cases hs : w.isScrolling
    · simp [hs]
    · simp only [Bool.not_eq_true] at hs
      simp [hs, hsmall]
  · intro i sect hs hbig hcur hsect hshort
    have hnotsmall : ¬ |deltaY| < 5 := not_lt.mpr hbig
    have hnotlong : ¬ sect.height > w.viewportHeight * (11/10) := not_lt.mpr hshort
    have hilen : i < w.sections.length := by
      rcases List.getElem?_eq_some_iff.mp hsect with ⟨h, _⟩
      exact h
    refine ⟨?_, ?_, ?_, ?_⟩
    · intro next hdown hnext
      have hnextlen : i + 1 < w.sections.length := by
        rcases List.getElem?_eq_some_iff.mp hnext with ⟨h, _⟩
        exact h
      have hnotlast : ¬ i = w.sections.length - 1 := by omega
      have hjump := scrollToSectionSS_valid w (i + 1) next hnext
      unfold handleWheelSS
      simp only [hs, Bool.false_eq_true, if_false, hnotsmall, if_false, hcur, hsect]
      simp only [hnotlong, if_false, hdown, hnotlast, if_false, if_true]
      push_cast at hjump ⊢
      simp [hjump]
    · intro prev hup hipos hprev
      have hjump := scrollToSectionSS_valid w (i - 1) prev hprev
      have hcast : ((i : ℤ) - 1) = ((i - 1 : ℕ) : ℤ) := by omega
      have hnotfirst : ¬ i = 0 := by omega
      have hnotdown : ¬ deltaY > 0 := by linarith
      unfold handleWheelSS
      simp only [hs, Bool.false_eq_true, if_false, hnotsmall, if_false, hcur, hsect]
      simp only [hnotlong, if_false, hnotdown, hnotfirst, if_false, if_true]
      rw [hcast]
      simp [hjump]
    · intro hdown hlast
      unfold handleWheelSS
      simp only [hs, Bool.false_eq_true, if_false, hnotsmall, if_false, hcur, hsect]
      simp [hnotlong, hdown, hlast]
    · intro hup hfirst
      have hnotdown : ¬ deltaY > 0 := by linarith
      unfold handleWheelSS
      simp only [hs, Bool.false_eq_true, if_false, hnotsmall, if_false, hcur, hsect]
      simp [hnotlong, hnotdown, hfirst]

/-- Witness for C9 at concrete inputs: two 800px sections, 800px viewport.
At the top of section 0 a small delta (1) is ignored, a delta of 10 jumps to
section 1, and a delta of -10 is a prevented no-op; at section 1 a delta of
10 is a prevented no-op (last section). -/
theorem c9_wheel_classifier_witness :
    handleWheelSS 1 c9World = (c9World, [], false) ∧
    handleWheelSS 10 c9World =
      ({ c9World with isScrolling := true, currentSection := 1 }, [(800 : ℚ)], true) ∧
    handleWheelSS (-10) c9World = (c9World, [], true) ∧
    handleWheelSS 10 c9WorldLast = (c9WorldLast, [], true) := by
  refine ⟨?_, ?_, ?_, ?_⟩
  · exact (c9_wheel_classifier 1 c9World).1 (by norm_num)
  · exact ((c9_wheel_classifier 10 c9World).2 0
      { top := 0, bottom := 800, height := 800 } rfl (by norm_num) (by decide) rfl
      (by norm_num [c9World])).1 { top := 800, bottom := 1600, height := 800 }
      (by norm_num) rfl
  · exact ((c9_wheel_classifier (-10) c9World).2 0
      { top := 0, bottom := 800, height := 800 } rfl (by norm_num) (by decide) rfl
      (by norm_num [c9World])).2.2.2 (by norm_num) rfl
  · exact ((c9_wheel_classifier 10 c9WorldLast).2 1
      { top := 800, bottom := 1600, height := 800 } rfl (by norm_num) (by decide) rfl
      (by norm_num [c9WorldLast, c9World])).2.2.1 (by norm_num) rfl

lemma mem_mapSet (m : List (String × Spring)) (key : String) (v : Spring) :
    ∀ p ∈ mapSet m key v, p.2 = v ∨ p ∈ m := by
  induction m with
  | nil => intro p hp; simp [mapSet] at hp; simp [hp]
  | cons q rest ih =>
      obtain ⟨k0, v0⟩ := q
      intro p hp
      by_cases hk : k0 = key
      · simp only [mapSet, if_pos hk] at hp
        rcases List.mem_cons.mp hp with h | h
        · exact Or.inl (by simp [h])
        · exact Or.inr (List.mem_cons.mpr (Or.inr h))
      · simp only [mapSet, if_neg hk] at hp
        rcases List.mem_cons.mp hp with h | h
        · exact Or.inr (List.mem_cons.mpr (Or.inl h))
        · rcases ih p h with h' | h'
          · exact Or.inl h'
          · exact Or.inr (List.mem_cons.mpr (Or.inr h'))

lemma startLoop_fields (e : EngineState) :
    (startLoop e).springs = e.springs ∧
    (startLoop e).sleepThreshold = e.sleepThreshold := by
  unfold startLoop
  split <;> exact ⟨rfl, rfl⟩

lemma settledInv_createSpring (id : String) (v t k c : ℚ) (e : EngineState)
    (h : SettledInv e) : SettledInv (createSpring id v t k c e) := by
  refine ⟨h.1, ?_⟩
  intro p hp hset
  rcases mem_mapSet _ _ _ p hp with hnew | hold
  · rw [hnew] at hset
    simp at hset
  · exact h.2 p hold hset

lemma settledInv_updateTarget (id : String) (t : ℚ) (e : EngineState)
    (h : SettledInv e) : SettledInv ((updateTarget id t e).1) := by
  unfold updateTarget
  cases hm : mapGet e.springs id with
  | none => exact h
  | some s =>
      dsimp only
      set e' : EngineState :=
        { e with springs := mapSet e.springs id { s with target := t, isSettled := false } }
        with he'
      have hinv' : SettledInv e' := by
        refine ⟨h.1, ?_⟩
        intro p hp hset
        rcases mem_mapSet _ _ _ p hp with hnew | hold
        · rw [hnew] at hset
          simp at hset
        · exact h.2 p hold hset
      split
      · exact hinv'
      · refine ⟨?_, ?_⟩
        · rw [(startLoop_fields e').2]
          exact hinv'.1
        · rw [(startLoop_fields e').2]
          intro p hp
          exact hinv'.2 p (by rwa [(startLoop_fields e').1] at hp)

lemma mem_of_mapGet (m : List (String × Spring)) (key : String) (s : Spring)
    (h : mapGet m key = some s) : (key, s) ∈ m := by
  induction m with
  | nil => simp [mapGet] at h
  | cons q rest ih =>
      obtain ⟨k0, v0⟩ := q
      by_cases hk : k0 = key
      · subst hk
        simp only [mapGet, if_true] at h
        simp only [Option.some.injEq] at h
        subst h
        exact List.mem_cons.mpr (Or.inl rfl)
      · simp only [mapGet, if_neg hk] at h
        exact List.mem_cons.mpr (Or.inr (ih h))

lemma settledInv_setValue (id : String) (v : ℚ) (e : EngineState)
    (h : SettledInv e) : SettledInv ((setValue id v e).1) := by
  unfold setValue
  cases hm : mapGet e.springs id with
  | none => exact h
  | some s =>
      refine ⟨h.1, ?_⟩
      intro p hp hset
      rcases mem_mapSet _ _ _ p hp with hnew | hold
      · rw [hnew] at hset ⊢
        exact ⟨rfl, of_decide_eq_true hset⟩
      · exact h.2 p hold hset

lemma settledInv_setConfig (id : String) (k? c? : Option ℚ) (e : EngineState)
    (h : SettledInv e) : SettledInv ((setConfig id k? c? e).1) := by
  unfold setConfig
  cases hm : mapGet e.springs id with
  | none => exact h
  | some s =>
      refine ⟨h.1, ?_⟩
      intro p hp hset
      rcases mem_mapSet _ _ _ p hp with hnew | hold
      · rw [hnew] at hset ⊢
        exact h.2 (id, s) (mem_of_mapGet _ _ _ hm) hset
      · exact h.2 p hold hset

lemma settledInv_stepEngine (dt : ℚ) (e : EngineState)
    (h : SettledInv e) : SettledInv (stepEngine dt e) := by
  refine ⟨h.1, ?_⟩
  intro p hp hset
  rcases List.mem_map.mp hp with ⟨q, hq, hpq⟩
  subst hpq
  simp only at hset ⊢
  unfold stepSpring at hset ⊢
  by_cases hqset : q.2.isSettled
  · rw [if_pos hqset] at hset ⊢
    exact h.2 q hq hset
  · rw [if_neg hqset] at hset ⊢
    dsimp only at hset ⊢
    by_cases hsnap : |q.2.velocity| < e.sleepThreshold ∧
        |q.2.value - q.2.target| < e.sleepThreshold
    · rw [if_pos hsnap] at hset ⊢
      refine ⟨rfl, ?_⟩
      simpa using h.1
    · rw [if_neg hsnap] at hset
      exact absurd hset (by simpa using hqset)

lemma settledInv_applyOp (op : EngineOp) (e : EngineState)
    (h : SettledInv e) : SettledInv (applyOp op e) := by
  cases op with
  | create id v t k c => exact settledInv_createSpring id v t k c e h
  | retarget id t => exact settledInv_updateTarget id t e h
  | setVal id v => exact settledInv_setValue id v e h
  | setCfg id k? c? => exact settledInv_setConfig id k? c? e h
  | stepOp dt => exact settledInv_stepEngine dt e h

lemma settledInv_foldl (ops : List EngineOp) :
    ∀ e : EngineState, SettledInv e →
      SettledInv (ops.foldl (fun e op => applyOp op e) e) := by
  induction ops with
  | nil => intro e h; exact h
  | cons op rest ih => intro e h; exact ih _ (settledInv_applyOp op e h)

/-- C1, counterexample: `setValue('x', 1/2000)` on a spring with target 0
marks it settled (|1/2000| is below the sleep threshold 1/1000) with
velocity 0 but value 1/2000 ≠ target 0 — settled does not imply the value
is snapped to the target exactly. -/
theorem c1_counterexample :
    (getSpring "x" (applyOps c1Ops)).map
      (fun s => (s.isSettled, s.velocity, decide (s.value = s.target))) =
      some (true, 0, false) := by
  decide

/-- C1 (corrected): after any sequence of engine operations (`createSpring`,
`updateTarget`, `setValue`, `setConfig`, `step`) starting from the freshly
constructed engine, every settled spring has velocity exactly 0 and its
value within the sleep threshold of the target (`|value - target| <
sleepThreshold`) — but not necessarily equal to it, since `setValue` settles
without snapping. -/
theorem c1_settled_invariant (ops : List EngineOp) :
    ∀ p ∈ (applyOps ops).springs, p.2.isSettled = true →
      p.2.velocity = 0 ∧
        |p.2.value - p.2.target| < (applyOps ops).sleepThreshold := by
  have base : SettledInv initEngine := by
    constructor
    · norm_num [initEngine]
    · intro p hp
      simp [initEngine] at hp
  exact (settledInv_foldl ops initEngine base).2

/-- Witness for C1 at a concrete input: the counterexample run itself
satisfies the (amended) invariant — the settled spring has velocity 0 and
its value 1/2000 within the threshold of the target 0. -/
theorem c1_settled_invariant_witness :
    let p : String × Spring :=
      ("x", { id := "x", value := 1/2000, target := 0, velocity := 0,
              k := 1/2, c := 7/10, isSettled := true })
    p.2.velocity = 0 ∧
      |p.2.value - p.2.target| < (applyOps c1Ops).sleepThreshold :=
  c1_settled_invariant c1Ops
    ("x", { id := "x", value := 1/2000, target := 0, velocity := 0,
            k := 1/2, c := 7/10, isSettled := true })
    (by decide) rfl

lemma geomKernel_zero {K : Type} [Field K] (l1 l2 : K) : geomKernel l1 l2 0 = 0 := by
  simp [geomKernel]

lemma geomKernel_one {K : Type} [Field K] (l1 l2 : K) : geomKernel l1 l2 1 = 1 := by
  simp [geomKernel]

lemma geomKernel_peel {K : Type} [Field K] (l1 l2 : K) (n : ℕ) :
    geomKernel l1 l2 (n + 1) = l2 * geomKernel l1 l2 n + l1 ^ n := by
  unfold geomKernel
  rw [Finset.sum_range_succ]
  have h1 : ∀ i ∈ Finset.range n,
      l1 ^ i * l2 ^ (n + 1 - 1 - i) = l2 * (l1 ^ i * l2 ^ (n - 1 - i)) := by
    intro i hi
    have hi' : i < n := Finset.mem_range.mp hi
    rw [show n + 1 - 1 - i = (n - 1 - i) + 1 by omega, pow_succ]
    ring
  rw [Finset.sum_congr rfl h1, ← Finset.mul_sum]
  simp [Nat.sub_self]

lemma geomKernel_rec {K : Type} [Field K] (l1 l2 : K) (n : ℕ) :
    geomKernel l1 l2 (n + 2) =
      (l1 + l2) * geomKernel l1 l2 (n + 1) - l1 * l2 * geomKernel l1 l2 n := by
  have h1 := geomKernel_peel l1 l2 n
  have h2 := geomKernel_peel l1 l2 (n + 1)
  have : l1 * geomKernel l1 l2 (n + 1) - l1 * l2 * geomKernel l1 l2 n = l1 ^ (n + 1) := by
    rw [h1]; ring
  calc geomKernel l1 l2 (n + 2)
      = l2 * geomKernel l1 l2 (n + 1) + l1 ^ (n + 1) := h2
    _ = l2 * geomKernel l1 l2 (n + 1) +
          (l1 * geomKernel l1 l2 (n + 1) - l1 * l2 * geomKernel l1 l2 n) := by rw [this]
    _ = (l1 + l2) * geomKernel l1 l2 (n + 1) - l1 * l2 * geomKernel l1 l2 n := by ring

lemma eulerStep_cayley {K : Type} [Field K] (k c h : K) (z : K × K) :
    eulerStep k c h (eulerStep k c h z) =
      ((2 - c * h - k * h ^ 2) * (eulerStep k c h z).1 - (1 - c * h) * z.1,
       (2 - c * h - k * h ^ 2) * (eulerStep k c h z).2 - (1 - c * h) * z.2) := by
  unfold eulerStep
  dsimp only
  simp only [Prod.mk.injEq]
  constructor <;> ring

lemma scalar_closed_form {K : Type} [Field K] (l1 l2 : K) (x : ℕ → K)
    (hrec : ∀ n, x (n + 2) = (l1 + l2) * x (n + 1) - l1 * l2 * x n) :
    ∀ n, x (n + 1) = geomKernel l1 l2 (n + 1) * x 1 - l1 * l2 * geomKernel l1 l2 n * x 0 := by
  have key : ∀ n,
      (x (n + 1) = geomKernel l1 l2 (n + 1) * x 1 - l1 * l2 * geomKernel l1 l2 n * x 0) ∧
      (x (n + 2) = geomKernel l1 l2 (n + 2) * x 1 - l1 * l2 * geomKernel l1 l2 (n + 1) * x 0) := by
    intro n
    induction n with
    | zero =>
        constructor
        · rw [geomKernel_one, geomKernel_zero]; ring
        · rw [hrec 0, geomKernel_rec, geomKernel_one, geomKernel_zero]; ring
    | succ n ih =>
        refine ⟨ih.2, ?_⟩
        have e1 : n + 1 + 1 = n + 2 := rfl
        rw [hrec (n + 1), e1, ih.1, ih.2, geomKernel_rec l1 l2 (n + 1), geomKernel_rec l1 l2 n]
        ring
  exact fun n => (key n).1

lemma geomKernel_norm_le (l1 l2 : ℂ) (n : ℕ) :
    ‖geomKernel l1 l2 n‖ ≤ (n : ℝ) * max ‖l1‖ ‖l2‖ ^ (n - 1) := by
  set r := max ‖l1‖ ‖l2‖ with hr
  have hr0 : 0 ≤ r := le_trans (norm_nonneg l1) (le_max_left _ _)
  calc ‖geomKernel l1 l2 n‖
      ≤ ∑ i in Finset.range n, ‖l1 ^ i * l2 ^ (n - 1 - i)‖ := norm_sum_le _ _
    _ ≤ ∑ _i in Finset.range n, r ^ (n - 1) := by
        apply Finset.sum_le_sum
        intro i hi
        have hi' : i < n := Finset.mem_range.mp hi
        rw [norm_mul, norm_pow, norm_pow]
        calc ‖l1‖ ^ i * ‖l2‖ ^ (n - 1 - i)
            ≤ r ^ i * r ^ (n - 1 - i) := by
              apply mul_le_mul
              · exact pow_le_pow_left₀ (norm_nonneg l1) (le_max_left _ _) i
              · exact pow_le_pow_left₀ (norm_nonneg l2) (le_max_right _ _) _
              · positivity
              · positivity
          _ = r ^ (n - 1) := by
              rw [← pow_add]
              congr 1
              omega
    _ = (n : ℝ) * r ^ (n - 1) := by
        rw [Finset.sum_const, Finset.card_range, nsmul_eq_mul]

lemma tendsto_geomKernel_zero (l1 l2 : ℂ) (h1 : ‖l1‖ < 1) (h2 : ‖l2‖ < 1) :
    Filter.Tendsto (fun n => geomKernel l1 l2 n) Filter.atTop (nhds 0) := by
  set r := max ‖l1‖ ‖l2‖ with hr
  have hr0 : 0 ≤ r := le_trans (norm_nonneg l1) (le_max_left _ _)
  have hr1 : r < 1 := max_lt h1 h2
  have hb : Filter.Tendsto (fun n : ℕ => (n : ℝ) * r ^ (n - 1)) Filter.atTop (nhds 0) := by
    rw [← Filter.tendsto_add_atTop_iff_nat 1]
    have hsum : Filter.Tendsto (fun n : ℕ => (n : ℝ) * r ^ n) Filter.atTop (nhds 0) := by
      have hs : Summable (fun n : ℕ => (n : ℝ) ^ 1 * r ^ n) :=
        summable_pow_mul_geometric_of_norm_lt_one 1
          (by rwa [Real.norm_eq_abs, abs_of_nonneg hr0])
      simpa using hs.tendsto_atTop_zero
    have hpow : Filter.Tendsto (fun n : ℕ => r ^ n) Filter.atTop (nhds 0) :=
      tendsto_pow_atTop_nhds_zero_of_lt_one hr0 hr1
    have := hsum.add hpow
    simp only [add_zero] at this
    apply this.congr
    intro n
    push_cast
    ring
  exact squeeze_zero_norm (geomKernel_norm_le l1 l2) hb

set_option maxHeartbeats 1600000 in
lemma exists_eigen (k c : ℚ) (hk0 : 0 < k) (hk1 : k < 1) (hc0 : 0 < c) (hc1 : c < 1) :
    ∃ l1 l2 : ℂ,
      l1 + l2 = ((2 - c * (1/60) - k * (1/60) ^ 2 : ℚ) : ℂ) ∧
      l1 * l2 = ((1 - c * (1/60) : ℚ) : ℂ) ∧
      ‖l1‖ < 1 ∧ ‖l2‖ < 1 := by
  set τ : ℝ := ((2 - c * (1/60) - k * (1/60) ^ 2 : ℚ) : ℝ) with hτ
  set a : ℝ := ((1 - c * (1/60) : ℚ) : ℝ) with ha
  have hτ0 : 0 < τ := by
    rw [hτ]
    have : (0 : ℚ) < 2 - c * (1/60) - k * (1/60) ^ 2 := by nlinarith
    exact_mod_cast this
  have hτ2 : τ < 2 := by
    rw [hτ]
    have : (2 - c * (1/60) - k * (1/60) ^ 2 : ℚ) < 2 := by nlinarith
    exact_mod_cast this
  have ha0 : 0 < a := by
    rw [ha]
    have : (0 : ℚ) < 1 - c * (1/60) := by nlinarith
    exact_mod_cast this
  have ha1 : a < 1 := by
    rw [ha]
    have : (1 - c * (1/60) : ℚ) < 1 := by nlinarith
    exact_mod_cast this
  have hw : 0 < 1 - τ + a := by
    rw [hτ, ha]
    have : (0 : ℚ) < 1 - (2 - c * (1/60) - k * (1/60) ^ 2) + (1 - c * (1/60)) := by nlinarith
    exact_mod_cast this
  rcases le_or_lt 0 (τ ^ 2 - 4 * a) with hdisc | hdisc
  · -- real roots
    set s : ℝ := Real.sqrt (τ ^ 2 - 4 * a) with hs
    have hs0 : 0 ≤ s := Real.sqrt_nonneg _
    have hs2 : s ^ 2 = τ ^ 2 - 4 * a := Real.sq_sqrt hdisc
    have hslt : s < 2 - τ := by
      apply (Real.sqrt_lt' (by linarith)).mpr
      nlinarith
    have hsltτ : s < τ := by
      apply (Real.sqrt_lt' hτ0).mpr
      nlinarith
    refine ⟨(((τ + s) / 2 : ℝ) : ℂ), (((τ - s) / 2 : ℝ) : ℂ), ?_, ?_, ?_, ?_⟩
    · rw [hτ]
      push_cast
      ring
    · rw [← Complex.ofReal_mul]
      have hmul : ((τ + s) / 2) * ((τ - s) / 2) = a := by nlinarith [hs2]
      rw [hmul, ha]
      push_cast
      ring
    · rw [Complex.norm_real, Real.norm_eq_abs, abs_lt]
      constructor <;> nlinarith
    · rw [Complex.norm_real, Real.norm_eq_abs, abs_lt]
      constructor <;> nlinarith
  · -- complex conjugate roots
    set s : ℝ := Real.sqrt (4 * a - τ ^ 2) with hs
    have hs0 : 0 ≤ s := Real.sqrt_nonneg _
    have hs2 : s ^ 2 = 4 * a - τ ^ 2 := Real.sq_sqrt (by linarith)
    refine ⟨(τ / 2 : ℝ) + (s / 2 : ℝ) * Complex.I,
            (τ / 2 : ℝ) - (s / 2 : ℝ) * Complex.I, ?_, ?_, ?_, ?_⟩
    · rw [hτ]
      push_cast
      ring
    · have hI : Complex.I * Complex.I = -1 := Complex.I_mul_I
      have expand : ((τ / 2 : ℝ) + (s / 2 : ℝ) * Complex.I) *
          ((τ / 2 : ℝ) - (s / 2 : ℝ) * Complex.I) =
          (((τ / 2) ^ 2 + (s / 2) ^ 2 : ℝ) : ℂ) := by
        push_cast
        linear_combination (-((s : ℂ) / 2) ^ 2) * hI
      rw [expand]
      have hab : ((τ / 2) ^ 2 + (s / 2) ^ 2 : ℝ) = a := by nlinarith
      rw [hab, ha]
      push_cast
      ring
    · have hnormsq : Complex.normSq ((τ / 2 : ℝ) + (s / 2 : ℝ) * Complex.I) = a := by
        rw [Complex.normSq_add_mul_I]
        nlinarith
      have hlt : Complex.normSq ((τ / 2 : ℝ) + (s / 2 : ℝ) * Complex.I) < 1 := by
        rw [hnormsq]; exact ha1
      have := Complex.normSq_eq_abs ((τ / 2 : ℝ) + (s / 2 : ℝ) * Complex.I)
      rw [Complex.norm_eq_abs]
      nlinarith [Complex.abs.nonneg ((τ / 2 : ℝ) + (s / 2 : ℝ) * Complex.I)]
    · have hrw : ((τ / 2 : ℝ) : ℂ) - ((s / 2 : ℝ) : ℂ) * Complex.I =
          ((τ / 2 : ℝ) : ℂ) + ((-(s / 2) : ℝ) : ℂ) * Complex.I := by
        push_cast
        ring
      have hnormsq : Complex.normSq ((τ / 2 : ℝ) - (s / 2 : ℝ) * Complex.I) = a := by
        rw [hrw, Complex.normSq_add_mul_I]
        nlinarith
      have hlt : Complex.normSq ((τ / 2 : ℝ) - (s / 2 : ℝ) * Complex.I) < 1 := by
        rw [hnormsq]; exact ha1
      have := Complex.normSq_eq_abs ((τ / 2 : ℝ) - (s / 2 : ℝ) * Complex.I)
      rw [Complex.norm_eq_abs]
      nlinarith [Complex.abs.nonneg ((τ / 2 : ℝ) - (s / 2 : ℝ) * Complex.I)]

lemma eulerStep_cast (k c : ℚ) (p : ℚ × ℚ) :
    (((eulerStep k c (1/60) p).1 : ℂ), ((eulerStep k c (1/60) p).2 : ℂ)) =
      eulerStep (k : ℂ) (c : ℂ) ((1/60 : ℚ) : ℂ) ((p.1 : ℂ), (p.2 : ℂ)) := by
  unfold eulerStep
  dsimp only
  simp only [Prod.mk.injEq]
  constructor <;> push_cast <;> ring

lemma eulerStep_iterate_cast (k c : ℚ) (z : ℚ × ℚ) (n : ℕ) :
    ((((eulerStep k c (1/60))^[n] z).1 : ℂ), (((eulerStep k c (1/60))^[n] z).2 : ℂ)) =
      (eulerStep (k : ℂ) (c : ℂ) ((1/60 : ℚ) : ℂ))^[n] ((z.1 : ℂ), (z.2 : ℂ)) := by
  induction n with
  | zero => rfl
  | succ n ih =>
      rw [Function.iterate_succ_apply', Function.iterate_succ_apply', ← ih]
      exact eulerStep_cast k c _

lemma eventually_small (k c : ℚ) (hk0 : 0 < k) (hk1 : k < 1)
    (hc0 : 0 < c) (hc1 : c < 1) (z : ℚ × ℚ) :
    ∃ N : ℕ, ∀ n, N ≤ n →
      |((eulerStep k c (1/60))^[n] z).1| < 1/1000 ∧
      |((eulerStep k c (1/60))^[n] z).2| < 1/1000 := by
  obtain ⟨l1, l2, hsum, hprod, hn1, hn2⟩ := exists_eigen k c hk0 hk1 hc0 hc1
  set fC := eulerStep (k : ℂ) (c : ℂ) ((1/60 : ℚ) : ℂ) with hfC
  set zC : ℂ × ℂ := ((z.1 : ℂ), (z.2 : ℂ)) with hzC
  have hτ : (2 : ℂ) - (c : ℂ) * ((1/60 : ℚ) : ℂ) - (k : ℂ) * ((1/60 : ℚ) : ℂ) ^ 2 =
      l1 + l2 := by
    rw [hsum]; push_cast; ring
  have ha : (1 : ℂ) - (c : ℂ) * ((1/60 : ℚ) : ℂ) = l1 * l2 := by
    rw [hprod]; push_cast; ring
  -- the two complex coordinate sequences satisfy the scalar recurrence
  have hrec1 : ∀ n, (fC^[n + 2] zC).1 =
      (l1 + l2) * (fC^[n + 1] zC).1 - l1 * l2 * (fC^[n] zC).1 := by
    intro n
    rw [Function.iterate_succ_apply', Function.iterate_succ_apply', hfC,
        eulerStep_cayley]
    dsimp only
    rw [hτ, ha]
  have hrec2 : ∀ n, (fC^[n + 2] zC).2 =
      (l1 + l2) * (fC^[n + 1] zC).2 - l1 * l2 * (fC^[n] zC).2 := by
    intro n
    rw [Function.iterate_succ_apply', Function.iterate_succ_apply', hfC,
        eulerStep_cayley]
    dsimp only
    rw [hτ, ha]
  -- hence they tend to 0
  have hK := tendsto_geomKernel_zero l1 l2 hn1 hn2
  have hK1 : Filter.Tendsto (fun n => geomKernel l1 l2 (n + 1)) Filter.atTop (nhds 0) :=
    hK.comp (Filter.tendsto_add_atTop_nat 1)
  have htendsto : ∀ x : ℕ → ℂ,
      (∀ n, x (n + 2) = (l1 + l2) * x (n + 1) - l1 * l2 * x n) →
      Filter.Tendsto x Filter.atTop (nhds 0) := by
    intro x hrec
    have hclosed := scalar_closed_form l1 l2 x hrec
    rw [← Filter.tendsto_add_atTop_iff_nat 1]
    have t1 : Filter.Tendsto (fun n => geomKernel l1 l2 (n + 1) * x 1)
        Filter.atTop (nhds 0) := by
      simpa using hK1.mul_const (x 1)
    have t2 : Filter.Tendsto (fun n => l1 * l2 * geomKernel l1 l2 n * x 0)
        Filter.atTop (nhds 0) := by
      have := (hK.const_mul (l1 * l2)).mul_const (x 0)
      simpa [mul_assoc] using this
    have := t1.sub t2
    simp only [sub_zero] at this
    exact this.congr (fun n => (hclosed n).symm)
  have hx := htendsto (fun n => (fC^[n] zC).1) hrec1
  have hy := htendsto (fun n => (fC^[n] zC).2) hrec2
  have hθ : (0 : ℝ) < ((1/1000 : ℚ) : ℝ) := by norm_num
  have hev := ((NormedAddCommGroup.tendsto_nhds_zero.mp hx) _ hθ).and
    ((NormedAddCommGroup.tendsto_nhds_zero.mp hy) _ hθ)
  rcases Filter.eventually_atTop.mp hev with ⟨N, hN⟩
  refine ⟨N, ?_⟩
  intro n hn
  have hcast := eulerStep_iterate_cast k c z n
  have h1 : (((eulerStep k c (1/60))^[n] z).1 : ℂ) = (fC^[n] zC).1 := by
    rw [← hcast]
  have h2 : (((eulerStep k c (1/60))^[n] z).2 : ℂ) = (fC^[n] zC).2 := by
    rw [← hcast]
  have hb := hN n hn
  have hnorm : ∀ q : ℚ, ‖(q : ℂ)‖ = |(q : ℝ)| := by
    intro q
    rw [show ((q : ℂ)) = ((q : ℝ) : ℂ) by push_cast; ring]
    rw [Complex.norm_real, Real.norm_eq_abs]
  constructor
  · have := hb.1
    rw [← h1, hnorm] at this
    have habs : |((((eulerStep k c (1/60))^[n] z).1 : ℚ) : ℝ)| =
        ((|((eulerStep k c (1/60))^[n] z).1| : ℚ) : ℝ) := by push_cast; ring
    rw [habs] at this
    exact_mod_cast this
  · have := hb.2
    rw [← h2, hnorm] at this
    have habs : |((((eulerStep k c (1/60))^[n] z).2 : ℚ) : ℝ)| =
        ((|((eulerStep k c (1/60))^[n] z).2| : ℚ) : ℝ) := by push_cast; ring
    rw [habs] at this
    exact_mod_cast this

lemma stepSpring_settled (thr dt : ℚ) (s : Spring) (h : s.isSettled = true) :
    stepSpring thr dt s = s := by
  simp [stepSpring, h]

lemma stepEngine_springs (dt : ℚ) (e : EngineState) :
    (stepEngine dt e).springs =
      e.springs.map (fun p => (p.1, stepSpring e.sleepThreshold dt p.2)) := rfl

lemma stepEngine_sleepThreshold (dt : ℚ) (e : EngineState) :
    (stepEngine dt e).sleepThreshold = e.sleepThreshold := rfl

lemma spring_iterate_cases (k c x0 T : ℚ) (n : ℕ) :
    (stepSpring (1/1000) (1/60))^[n]
        { id := "x", value := x0, target := T, velocity := 0, k := k, c := c,
          isSettled := false } =
      ({ id := "x", value := T, target := T, velocity := 0, k := k, c := c,
         isSettled := true } : Spring) ∨
    (stepSpring (1/1000) (1/60))^[n]
        { id := "x", value := x0, target := T, velocity := 0, k := k, c := c,
          isSettled := false } =
      ({ id := "x", value := T + ((eulerStep k c (1/60))^[n] (x0 - T, 0)).1,
         target := T, velocity := ((eulerStep k c (1/60))^[n] (x0 - T, 0)).2,
         k := k, c := c, isSettled := false } : Spring) := by
  induction n with
  | zero =>
      right
      rw [Function.iterate_zero_apply, Function.iterate_zero_apply]
      dsimp only
      simp only [Spring.mk.injEq, true_and, and_true]
      ring
  | succ n ih =>
      rw [Function.iterate_succ_apply' (stepSpring (1/1000) (1/60))]
      rcases ih with h | h
      · left
        rw [h, stepSpring_settled _ _ _ rfl]
      · rw [h]
        by_cases hsnap : |((eulerStep k c (1/60))^[n] (x0 - T, 0)).2| < 1/1000 ∧
            |T + ((eulerStep k c (1/60))^[n] (x0 - T, 0)).1 - T| < 1/1000
        · left
          unfold stepSpring
          dsimp only
          rw [if_neg (by simp), if_pos hsnap]
        · right
          unfold stepSpring
          dsimp only
          rw [if_neg (by simp), if_neg hsnap]
          rw [Function.iterate_succ_apply' (eulerStep k c (1/60))]
          simp only [eulerStep]
          simp only [Spring.mk.injEq, true_and, and_true]
          constructor <;> ring

lemma engine_iterate_single (k c x0 T : ℚ) (n : ℕ) :
    ((stepEngine (1/60))^[n] (createSpring "x" x0 T k c initEngine)).springs =
      [("x", (stepSpring (1/1000) (1/60))^[n]
        { id := "x", value := x0, target := T, velocity := 0, k := k, c := c,
          isSettled := false })] ∧
    ((stepEngine (1/60))^[n] (createSpring "x" x0 T k c initEngine)).sleepThreshold =
      1/1000 := by
  induction n with
  | zero => exact ⟨rfl, rfl⟩
  | succ n ih =>
      rw [Function.iterate_succ_apply' (stepEngine (1/60)),
          Function.iterate_succ_apply' (stepSpring (1/1000) (1/60))]
      constructor
      · rw [stepEngine_springs, ih.1, ih.2]
        rfl
      · rw [stepEngine_sleepThreshold, ih.2]

lemma spring_settles (k c x0 T : ℚ) (hk0 : 0 < k) (hk1 : k < 1)
    (hc0 : 0 < c) (hc1 : c < 1) :
    ∃ N : ℕ, ∀ n, N ≤ n →
      (stepSpring (1/1000) (1/60))^[n]
          { id := "x", value := x0, target := T, velocity := 0, k := k, c := c,
            isSettled := false } =
        { id := "x", value := T, target := T, velocity := 0, k := k, c := c,
          isSettled := true } := by
  obtain ⟨N0, hN0⟩ := eventually_small k c hk0 hk1 hc0 hc1 (x0 - T, 0)
  have hfix : stepSpring (1/1000) (1/60)
      { id := "x", value := T, target := T, velocity := 0, k := k, c := c,
        isSettled := true } =
      { id := "x", value := T, target := T, velocity := 0, k := k, c := c,
        isSettled := true } :=
    stepSpring_settled _ _ _ rfl
  have hpersist : ∀ m base,
      (stepSpring (1/1000) (1/60))^[base]
          { id := "x", value := x0, target := T, velocity := 0, k := k, c := c,
            isSettled := false } =
        { id := "x", value := T, target := T, velocity := 0, k := k, c := c,
          isSettled := true } →
      (stepSpring (1/1000) (1/60))^[base + m]
          { id := "x", value := x0, target := T, velocity := 0, k := k, c := c,
            isSettled := false } =
        { id := "x", value := T, target := T, velocity := 0, k := k, c := c,
          isSettled := true } := by
    intro m base hbase
    rw [Nat.add_comm base m, Function.iterate_add_apply, hbase,
        Function.iterate_fixed hfix]
  have hsettle1 :
      (stepSpring (1/1000) (1/60))^[N0 + 1]
          { id := "x", value := x0, target := T, velocity := 0, k := k, c := c,
            isSettled := false } =
        { id := "x", value := T, target := T, velocity := 0, k := k, c := c,
          isSettled := true } ∨
      (stepSpring (1/1000) (1/60))^[N0]
          { id := "x", value := x0, target := T, velocity := 0, k := k, c := c,
            isSettled := false } =
        { id := "x", value := T, target := T, velocity := 0, k := k, c := c,
          isSettled := true } := by
    rcases spring_iterate_cases k c x0 T N0 with h | h
    · right; exact h
    · left
      have hbox := hN0 N0 le_rfl
      have hcond : |((eulerStep k c (1/60))^[N0] (x0 - T, 0)).2| < 1/1000 ∧
          |T + ((eulerStep k c (1/60))^[N0] (x0 - T, 0)).1 - T| < 1/1000 := by
        refine ⟨hbox.2, ?_⟩
        have heq : T + ((eulerStep k c (1/60))^[N0] (x0 - T, 0)).1 - T =
            ((eulerStep k c (1/60))^[N0] (x0 - T, 0)).1 := by ring
        rw [heq]
        exact hbox.1
      rw [Function.iterate_succ_apply', h]
      unfold stepSpring
      dsimp only
      rw [if_neg (by simp), if_pos hcond]
  refine ⟨N0 + 1, ?_⟩
  intro n hn
  rcases hsettle1 with h | h
  · obtain ⟨m, rfl⟩ := Nat.exists_eq_add_of_le hn
    exact hpersist m (N0 + 1) h
  · have hn' : N0 ≤ n := le_trans (Nat.le_succ N0) hn
    obtain ⟨m, rfl⟩ := Nat.exists_eq_add_of_le hn'
    exact hpersist m N0 h

lemma engine_settles (k c x0 T : ℚ) (hk0 : 0 < k) (hk1 : k < 1)
    (hc0 : 0 < c) (hc1 : c < 1) :
    ∃ N : ℕ, ∀ n, N ≤ n →
      getSpring "x" ((stepEngine (1/60))^[n] (createSpring "x" x0 T k c initEngine)) =
        some { id := "x", value := T, target := T, velocity := 0, k := k, c := c,
               isSettled := true } := by
  obtain ⟨N, hN⟩ := spring_settles k c x0 T hk0 hk1 hc0 hc1
  refine ⟨N, fun n hn => ?_⟩
  unfold getSpring
  rw [(engine_iterate_single k c x0 T n).1, hN n hn]
  simp [mapGet]

set_option maxRecDepth 100000

lemma c3_chunk1 : c3Sim 281 = c3State281 := by decide

lemma c3_chunk2 : (stepEngine (1/60))^[281] c3State281 = c3State562 := by decide

lemma c3_chunk3 : (stepEngine (1/60))^[281] c3State562 = c3State843 := by decide

lemma c3_chunk4 : (stepEngine (1/60))^[279] c3State843 = c3State1122 := by decide

lemma c3_sim_1122 : c3Sim 1122 = c3State1122 := by
  have h : (1122 : ℕ) = 279 + (281 + 281 + 281) := by norm_num
  unfold c3Sim
  rw [h, Function.iterate_add_apply, Function.iterate_add_apply,
      Function.iterate_add_apply]
  rw [show (stepEngine (1/60))^[281] c3Engine = c3State281 from c3_chunk1,
      c3_chunk2, c3_chunk3, c3_chunk4]

/-- C3, counterexample: in the spec's own scenario —
`createSpring('x', 0, 0, 0.5, 0.7)`, `updateTarget('x', 1)`, `dt = 1/60` —
after 2 simulated seconds (120 frames) the value is *not* within `1e-3` of
1 (it is still below 3/5) and the spring is not settled: with these
per-frame coefficients interpreted against dt in seconds, convergence takes
far longer than 2 s. -/
theorem c3_counterexample :
    (getValue "x" (c3Sim 120)).map (fun v => decide (|v - 1| < 1/1000)) =
      some false ∧
    (getSpring "x" (c3Sim 120)).map (fun s => s.isSettled) = some false ∧
    (getValue "x" (c3Sim 120)).map (fun v => decide (v < 3/5)) = some true := by
  refine ⟨by decide, by decide, by decide⟩

lemma c3_scenario_settles (n : ℕ) (hn : 1122 ≤ n) :
    getSpring "x" (c3Sim n) =
      some { id := "x", value := 1, target := 1, velocity := 0, k := 1/2,
             c := 7/10, isSettled := true } := by
  have hfix : stepEngine (1/60) c3State1122 = c3State1122 := by decide
  have hiter : ∀ m : ℕ, c3Sim (1122 + m) = c3State1122 := by
    intro m
    induction m with
    | zero => exact c3_sim_1122
    | succ m ih =>
        have : c3Sim (1122 + (m + 1)) = stepEngine (1/60) (c3Sim (1122 + m)) := by
          show (stepEngine (1/60))^[1122 + m + 1] c3Engine = _
          rw [Function.iterate_succ_apply']
          rfl
        rw [this, ih, hfix]
  obtain ⟨m, rfl⟩ := Nat.exists_eq_add_of_le hn
  rw [hiter m]
  decide

/-- C3 (corrected): for every spring with `k, c ∈ (0,1)`, any initial value
and zero initial velocity, and any fixed target `T`, iterating the engine's
`step` with `dt = 1/60` does eventually — within a bounded number of frames
— snap the spring exactly to `value = T` with `velocity = 0` and
`isSettled = true` (the per-frame update is a strict contraction); but the
spec's own scenario (`k = 0.5`, `c = 0.7`, retargeted to 1) is *not* within
`1e-3` of 1 after 2 simulated seconds: it first settles at frame 1122
(≈ 18.7 simulated seconds) and stays snapped from then on. -/
theorem c3_convergence :
    (∀ k c x0 T : ℚ, 0 < k → k < 1 → 0 < c → c < 1 →
      ∃ N : ℕ, ∀ n, N ≤ n →
        getSpring "x" ((stepEngine (1/60))^[n] (createSpring "x" x0 T k c initEngine)) =
          some { id := "x", value := T, target := T, velocity := 0, k := k, c := c,
                 isSettled := true }) ∧
    (∀ n, 1122 ≤ n → getSpring "x" (c3Sim n) =
      some { id := "x", value := 1, target := 1, velocity := 0, k := 1/2,
             c := 7/10, isSettled := true }) :=
  ⟨fun k c x0 T hk0 hk1 hc0 hc1 => engine_settles k c x0 T hk0 hk1 hc0 hc1,
   fun n hn => c3_scenario_settles n hn⟩

/-- Witness for C3 at concrete inputs: the scenario coefficients
`k = 1/2`, `c = 7/10` with initial value 0 and target 1 settle eventually,
and concretely the scenario engine is settled exactly at frame 1122. -/
theorem c3_convergence_witness :
    (∃ N : ℕ, ∀ n, N ≤ n →
      getSpring "x" ((stepEngine (1/60))^[n]
          (createSpring "x" 0 1 (1/2) (7/10) initEngine)) =
        some { id := "x", value := 1, target := 1, velocity := 0, k := 1/2,
               c := 7/10, isSettled := true }) ∧
    getSpring "x" (c3Sim 1122) =
      some { id := "x", value := 1, target := 1, velocity := 0, k := 1/2,
             c := 7/10, isSettled := true } :=
  ⟨c3_convergence.1 (1/2) (7/10) 0 1 (by norm_num) (by norm_num)
      (by norm_num) (by norm_num),
   c3_convergence.2 1122 (by norm_num)⟩
